import Mathlib

/-!
QGround-Gram: the class `DroneController`.

A shallow embedding of `src/Gram/DroneController.{h,cc}`.

Modelling conventions.

* `int` values (`m_droneCount`, `droneId`) are `Int`; wire bytes are `Nat` and
  `static_cast<quint8>` is `% 256`.
* `QVector<DroneStatus>` is a `List DroneStatus`.  `operator[]` outside
  `0 ≤ i < size` is undefined behaviour in the source; here it is `none`, so every
  function that touches the table returns an `Option`.
* Everything the controller does to the outside world (signals emitted, calls on the
  `QSerialPort`, sleeps) is appended, in program order, to the field `log`.
* What the `QSerialPort` answers (open succeeded or not, its error text, the number of
  bytes a write reports, whether the write-completion wait succeeded) is an argument of
  the function that asks.
* The constructor connects `readyRead` to `handleReadyRead` and `errorOccurred` to
  `handleError`.  The port delivers them as separate calls of these slots, with one
  exception: a failing `open()` emits `errorOccurred` before it returns, so inside
  `startCommunications`, which goes on after `open()`, the slot is run in place
  (`portOpenCall`).  The timeout of `waitForBytesWritten` is the last thing `sendCommand`
  does before it returns, so the slot call it causes is the `handleError` call that follows.
* `m_serialPort` is assigned in the constructor and never reset, so the null checks
  `m_serialPort && ...` are always true and are not modelled.
-/

namespace DroneController

/-- The enum `DroneStatus` of the header. -/
inductive DroneStatus where
  | Ready
  | NotReady
  | Missing
  deriving DecidableEq, Repr

/-- The numeric value of a `DroneStatus` (`static_cast<int>(status)`). -/
def DroneStatus.toInt : DroneStatus → Int
  | .Ready => 0
  | .NotReady => 1
  | .Missing => 2

/-- The enum `ReceiveState` of the header. -/
inductive ReceiveState where
  | AwaitingCommand
  | AwaitingData
  deriving DecidableEq, Repr

def CMD_INIT : Nat := 0x31
def CMD_DRONE_COUNT : Nat := 0x32
def CMD_READY : Nat := 0x33
def CMD_NOT_READY : Nat := 0x34
def CMD_MISSING : Nat := 0x35
def CMD_ARM : Nat := 0x36

/-- One observable action of the controller: a Qt signal it emits, a call it makes on
the serial port, or a sleep. -/
inductive Effect where
  | droneCountChanged (count : Int)
  | droneStatusChanged (droneId : Int) (status : Int)
  | connectionStatusChanged (connected : Bool)
  | statusMessageChanged (message : String)
  | portClose
  | portSetPortName (portName : String)
  | portSetLine (baudRate : Int)
  | portOpen
  | portClear
  | portWrite (data : List Nat)
  | portFlush
  | portWaitForBytesWritten (msecs : Nat)
  | sleep (secs : Nat)
  deriving DecidableEq, Repr

/-- The member variables of `DroneController`, the open/closed state of its serial port,
and the log of effects so far. -/
structure Controller where
  portIsOpen : Bool
  portName : String
  receiveState : ReceiveState
  currentCommand : Nat
  droneCount : Int
  droneStatus : List DroneStatus
  connected : Bool
  statusMessage : String
  log : List Effect
  deriving DecidableEq, Repr

/-- The constructor.  `m_currentCommand` has no initialiser in the source, hence the
argument `cmd0`. -/
def init (cmd0 : Nat) : Controller :=
  { portIsOpen := false
    portName := "/dev/ttyUSB0"
    receiveState := .AwaitingCommand
    currentCommand := cmd0
    droneCount := 0
    droneStatus := []
    connected := false
    statusMessage := "Disconnected"
    log := [] }

/-- Emitting a signal or calling the port: append to the log. -/
def Controller.emit (s : Controller) (e : Effect) : Controller :=
  { s with log := s.log ++ [e] }

/-! ### `QVector` -/

/-- Read `v[i]`; `none` when `i` is outside `0 ≤ i < size`. -/
def vecGet (v : List DroneStatus) (i : Int) : Option DroneStatus :=
  if 0 ≤ i ∧ i < v.length then v.get? i.toNat else none

/-- Write `v[i] = x`; `none` when `i` is outside `0 ≤ i < size`. -/
def vecSet (v : List DroneStatus) (i : Int) (x : DroneStatus) : Option (List DroneStatus) :=
  if 0 ≤ i ∧ i < v.length then some (v.set i.toNat x) else none

/-- The call `v.resize(n)`: truncates, or pads with value-initialised elements
(`DroneStatus(0)`, that is `Ready`).  A negative `n` is treated as `0`. -/
def vecResize (v : List DroneStatus) (n : Int) : List DroneStatus :=
  v.take n.toNat ++ List.replicate (n.toNat - v.length) DroneStatus.Ready

/-! ### Member functions -/

/-- Member function `DroneController::setStatusMessage`. -/
def setStatusMessage (s : Controller) (message : String) : Controller :=
  if s.statusMessage ≠ message then
    ({ s with statusMessage := message }).emit (.statusMessageChanged message)
  else s

/-- Member function `DroneController::getDroneStatus`. -/
def getDroneStatus (s : Controller) (droneId : Int) : Option DroneStatus :=
  if droneId ≥ 0 ∧ droneId < s.droneCount then vecGet s.droneStatus droneId
  else some .Missing

/-- Member function `DroneController::updateDroneStatus` (the `qDebug` output is not
modelled). -/
def updateDroneStatus (s : Controller) (droneId : Int) (status : DroneStatus) :
    Option Controller :=
  if droneId < s.droneCount then
    (vecSet s.droneStatus droneId status).map fun v =>
      ({ s with droneStatus := v }).emit (.droneStatusChanged droneId status.toInt)
  else some s

/-- The loop `for (int i = 0; i < m_droneCount; i++) m_droneStatus[i] = Missing;`,
from index `i` with `k` iterations to go. -/
def fillMissing (v : List DroneStatus) (i : Int) : Nat → Option (List DroneStatus)
  | 0 => some v
  | k + 1 => (vecSet v i .Missing).bind fun w => fillMissing w (i + 1) k

/-- The body of `case CMD_DRONE_COUNT` for data byte `data`. -/
def announceCount (s : Controller) (data : Nat) : Option Controller :=
  let count : Int := data
  (fillMissing (vecResize s.droneStatus count) 0 count.toNat).map fun v =>
    let s1 := { s with droneCount := count, droneStatus := v }
    let s2 := setStatusMessage s1 ("Connected - " ++ toString count ++ " drones available")
    s2.emit (.droneCountChanged count)

/-- The `switch (m_currentCommand)` of `handleReadyRead`, for data byte `data`. -/
def dispatch (s : Controller) (data : Nat) : Option Controller :=
  if s.currentCommand = CMD_DRONE_COUNT then announceCount s data
  else if s.currentCommand = CMD_READY then updateDroneStatus s data .Ready
  else if s.currentCommand = CMD_NOT_READY then updateDroneStatus s data .NotReady
  else if s.currentCommand = CMD_MISSING then updateDroneStatus s data .Missing
  else some s

/-- One iteration of the `while` loop of `handleReadyRead`, on the byte just read. -/
def processByte (s : Controller) (byte : Nat) : Option Controller :=
  match s.receiveState with
  | .AwaitingCommand =>
      some { s with currentCommand := byte % 256, receiveState := .AwaitingData }
  | .AwaitingData =>
      (dispatch s (byte % 256)).map fun t => { t with receiveState := .AwaitingCommand }

/-- Member function `DroneController::handleReadyRead`, with `bytes` the content of the
receive buffer of the port: the loop reads one byte per iteration until the buffer is empty
(a one-byte read from a non-empty buffer succeeds). -/
def handleReadyRead (s : Controller) : List Nat → Option Controller
  | [] => some s
  | b :: bs => (processByte s b).bind fun t => handleReadyRead t bs

/-- The values of `QSerialPort::SerialPortError` (Qt 6). -/
inductive SerialPortError where
  | NoError
  | DeviceNotFoundError
  | PermissionError
  | OpenError
  | NotOpenError
  | WriteError
  | ReadError
  | ResourceError
  | UnsupportedOperationError
  | TimeoutError
  | UnknownError
  deriving DecidableEq, Repr

/-- Member function `DroneController::configureSerialPort`; `portSetLine` stands for the
five setters (baud rate, 8 data bits, no parity, one stop bit, no flow control). -/
def configureSerialPort (s : Controller) (portName : String) (baudRate : Int) : Controller :=
  ({ s with portName := portName }).emit (.portSetLine baudRate)

/-- Member function `DroneController::stopCommunications`. -/
def stopCommunications (s : Controller) : Bool × Controller :=
  if s.portIsOpen then
    let s1 := ({ s with portIsOpen := false }).emit .portClose
    let s2 := ({ s1 with connected := false }).emit (.connectionStatusChanged false)
    (true, setStatusMessage s2 "Disconnected")
  else (false, s)

/-- Member function `DroneController::handleError`; `errorString` is the error text
of the port. -/
def handleError (s : Controller) (error : SerialPortError) (errorString : String) :
    Controller :=
  if error = .NoError then s
  else
    let s1 := setStatusMessage s ("Serial error: " ++ errorString)
    if error ≠ .NotOpenError ∧ s1.portIsOpen then (stopCommunications s1).2 else s1

/-- The call `m_serialPort->open(QIODevice::ReadWrite)`, with `openOk` its answer.  A
failing `open` reports its error `openError` by emitting `errorOccurred` before it returns,
and the constructor connects that signal to `handleError` (same thread, direct connection):
the slot runs inside the call.  A succeeding `open` emits `errorOccurred(NoError)` at most,
which the guard of `handleError` drops. -/
def portOpenCall (s : Controller) (openOk : Bool) (openError : SerialPortError)
    (errorString : String) : Controller :=
  let s1 := s.emit .portOpen
  if openOk then { s1 with portIsOpen := true }
  else handleError s1 openError errorString

/-- Member function `DroneController::startCommunications`.  `openOk`, `openError` and
`errorString` are what `open` answers, the error it reports when it fails and the error text
of the port; `written` is the value `write` returns. -/
def startCommunications (s : Controller) (openOk : Bool) (openError : SerialPortError)
    (errorString : String) (written : Int) : Bool × Controller :=
  let s1 := if s.portIsOpen then ({ s with portIsOpen := false }).emit .portClose else s
  let s2 := portOpenCall ((s1.emit (.portSetPortName s1.portName)).emit (.portSetLine 9600))
    openOk openError errorString
  if !openOk then
    let s3 := setStatusMessage s2
      ("Failed to open port " ++ s2.portName ++ ": " ++ errorString)
    (false, ({ s3 with connected := false }).emit (.connectionStatusChanged false))
  else
    let s3 := ((s2.emit (.sleep 2)).emit .portClear).emit
      (.portWrite [CMD_INIT % 256, 0x00])
    let success : Bool := written == 2
    if success then
      let s4 := setStatusMessage ((s3.emit .portFlush).emit (.sleep 2))
        "Waiting for DiAB response..."
      (success, ({ s4 with connected := true }).emit (.connectionStatusChanged true))
    else
      let s4 := setStatusMessage s3 "Failed to initialize communication"
      (success, ({ s4 with connected := false }).emit (.connectionStatusChanged false))

/-- Member function `DroneController::sendCommand`.  `written` is the value `write` returns
and `waitOk` the answer of `waitForBytesWritten(1000)`. -/
def sendCommand (s : Controller) (data : List Nat) (written : Int) (waitOk : Bool) :
    Bool × Controller :=
  if !s.portIsOpen then (false, s)
  else
    let s1 := s.emit (.portWrite data)
    if written = -1 then (false, s1)
    else if written ≠ data.length then (false, s1)
    else
      let s2 := s1.emit (.portWaitForBytesWritten 1000)
      if !waitOk then (false, s2) else (true, s2)

/-- Member function `DroneController::sendArm`; `static_cast<char>(droneId)` keeps the low
eight bits. -/
def sendArm (s : Controller) (droneId : Int) (written : Int) (waitOk : Bool) :
    Bool × Controller :=
  if !s.portIsOpen || droneId ≥ s.droneCount then (false, s)
  else sendCommand s [CMD_ARM % 256, (droneId % 256).toNat] written waitOk

/-- The bytes handed to the port by `write` calls, in order. -/
def bytesWritten : List Effect → List Nat
  | [] => []
  | .portWrite data :: es => data ++ bytesWritten es
  | _ :: es => bytesWritten es

/-- The table-size invariant of the data model: the table has `m_droneCount` entries and
the count fits a byte. -/
def WF (s : Controller) : Prop :=
  (s.droneStatus.length : Int) = s.droneCount ∧ s.droneCount ≤ 255

instance (s : Controller) : Decidable (WF s) := by
  unfold WF; infer_instance

/-- Overwrite the two cursor fields. -/
def withCursor (s : Controller) (r : ReceiveState) (c : Nat) : Controller :=
  { s with receiveState := r, currentCommand := c }

/-- Whether an effect is a call on the serial port (as opposed to a signal or a sleep). -/
def Effect.isPortCall : Effect → Bool
  | .portClose => true
  | .portSetPortName _ => true
  | .portSetLine _ => true
  | .portOpen => true
  | .portClear => true
  | .portWrite _ => true
  | .portFlush => true
  | .portWaitForBytesWritten _ => true
  | _ => false

/-- The calls made on the serial port, in order. -/
def portCalls (log : List Effect) : List Effect :=
  log.filter Effect.isPortCall

/-- The controller right after construction and a successful `startCommunications`. -/
def connected0 : Controller :=
  (startCommunications (init 0) true .NoError "" 2).2

/-- A connected controller that has been told of three drones: `connected0` after the bytes
`[0x32, 3]`. -/
def threeDrones : Controller :=
  (handleReadyRead connected0 [0x32, 3]).getD connected0

/-! ### The pairwise reference decoder

The next definitions follow the wording of the specification, not the source: the byte
sequence `b[0..m)` is cut into `m / 2` pairs `(b[2k], b[2k+1])`, each pair is applied
in turn, and the cursor is set from the parity of `m`. -/

/-- The pairs `(b[2k], b[2k+1])` for `k < m / 2`, each byte as an unsigned 8-bit value. -/
def refPairs (bs : List Nat) : List (Nat × Nat) :=
  (List.range (bs.length / 2)).map fun k => (bs.getD (2 * k) 0 % 256, bs.getD (2 * k + 1) 0 % 256)

/-- What one pair does: `0x32` announces a count, `0x33`, `0x34`, `0x35` update the status
of device `data`, any other command byte applies nothing. -/
def refApply (s : Controller) (cmd data : Nat) : Option Controller :=
  if cmd = 0x32 then announceCount s data
  else if cmd = 0x33 then updateDroneStatus s data .Ready
  else if cmd = 0x34 then updateDroneStatus s data .NotReady
  else if cmd = 0x35 then updateDroneStatus s data .Missing
  else some s

/-- Apply a list of pairs in order. -/
def refRun (s : Controller) : List (Nat × Nat) → Option Controller
  | [] => some s
  | p :: ps => (refApply s p.1 p.2).bind fun t => refRun t ps

/-- The cursor after `bs` has been consumed from `AwaitingCommand`: `AwaitingCommand` for an
even number of bytes, `AwaitingData` holding the last byte for an odd number.  The held
command byte after an even, non-zero number of bytes is the command of the last pair; after no
byte at all it is the one held before, `held`. -/
def refCursor (held : Nat) (bs : List Nat) (t : Controller) : Controller :=
  { t with
    receiveState := if bs.length % 2 = 0 then .AwaitingCommand else .AwaitingData
    currentCommand :=
      if bs.length % 2 = 1 then bs.getD (bs.length - 1) 0 % 256
      else if bs.length = 0 then held
      else bs.getD (bs.length - 2) 0 % 256 }

/-- The pairwise reference decoder. -/
def refDecode (s : Controller) (bs : List Nat) : Option Controller :=
  (refRun s (refPairs bs)).map (refCursor s.currentCommand bs)

/-! ### Calls from outside -/

/-- One call on the controller from outside: a public member function with its arguments, or
a slot invoked by the port, together with what the port answers during the call. -/
inductive Op where
  | configureSerialPort (portName : String) (baudRate : Int)
  | startCommunications (openOk : Bool) (openError : SerialPortError) (errorString : String)
      (written : Int)
  | stopCommunications
  | sendArm (droneId : Int) (written : Int) (waitOk : Bool)
  | getDroneStatus (droneId : Int)
  | handleError (error : SerialPortError) (errorString : String)
  | handleReadyRead (bytes : List Nat)
  deriving DecidableEq, Repr

/-- Perform one call; `none` when it indexes the table out of bounds. -/
def step (s : Controller) : Op → Option Controller
  | .configureSerialPort portName baudRate => some (configureSerialPort s portName baudRate)
  | .startCommunications openOk openError errorString written =>
      some (startCommunications s openOk openError errorString written).2
  | .stopCommunications => some (stopCommunications s).2
  | .sendArm droneId written waitOk => some (sendArm s droneId written waitOk).2
  | .getDroneStatus droneId => (getDroneStatus s droneId).map fun _ => s
  | .handleError error errorString => some (handleError s error errorString)
  | .handleReadyRead bytes => handleReadyRead s bytes

/-- Perform a sequence of calls in order. -/
def run (s : Controller) : List Op → Option Controller
  | [] => some s
  | op :: ops => (step s op).bind fun t => run t ops

/-- The texts of the `statusMessageChanged` notifications in a log, in order. -/
def statusMessages : List Effect → List String
  | [] => []
  | .statusMessageChanged message :: es => message :: statusMessages es
  | _ :: es => statusMessages es

/-- The controller after construction and one `startCommunications` whose `open` succeeded
but whose init write reported one byte only. -/
def initWriteFailed : Controller :=
  (startCommunications (init 0) true .NoError "" 1).2

/-- The controller after construction and one `startCommunications` whose `open` failed with
the error text `No such file or directory`. -/
def openFailed : Controller :=
  (startCommunications (init 0) false .DeviceNotFoundError "No such file or directory" 0).2

/-- The text `startCommunications` passes to `setStatusMessage` when it fails: the open
failure text when `open` failed, the init failure text otherwise. -/
def failureText (s : Controller) (openOk : Bool) (errorString : String) : String :=
  if openOk then "Failed to initialize communication"
  else "Failed to open port " ++ s.portName ++ ": " ++ errorString

end DroneController


namespace DroneController

/-! ## Auxiliary lemmas -/

theorem refPairs_nil : refPairs [] = [] := rfl

theorem refPairs_single (c : Nat) : refPairs [c] = [] := by
  simp [refPairs]

theorem refPairs_cons_cons (c d : Nat) (rest : List Nat) :
    refPairs (c :: d :: rest) = (c % 256, d % 256) :: refPairs rest := by
  have hlen : (c :: d :: rest).length / 2 = rest.length / 2 + 1 := by
    simp only [List.length_cons]; omega
  unfold refPairs
  rw [hlen, List.range_succ_eq_map, List.map_cons, List.map_map]
  refine congrArg₂ List.cons (by simp) (List.map_congr_left ?_)
  intro k _
  have h1 : 2 * (k + 1) = (2 * k + 1) + 1 := by omega
  have h2 : 2 * (k + 1) + 1 = (2 * k + 1 + 1) + 1 := by omega
  simp only [Function.comp, Nat.succ_eq_add_one, h1, h2, List.getD_cons_succ]

theorem setStatusMessage_withCursor (s : Controller) (m : String) (r : ReceiveState) (c : Nat) :
    setStatusMessage (withCursor s r c) m = withCursor (setStatusMessage s m) r c := by
  unfold setStatusMessage withCursor Controller.emit
  by_cases h : s.statusMessage = m <;> simp [h]

theorem announceCount_withCursor (s : Controller) (data : Nat) (r : ReceiveState) (c : Nat) :
    announceCount (withCursor s r c) data
      = (announceCount s data).map fun t => withCursor t r c := by
  unfold announceCount
  show (fillMissing (vecResize s.droneStatus (data : Int)) 0 (data : Int).toNat).map _
    = ((fillMissing (vecResize s.droneStatus (data : Int)) 0 (data : Int).toNat).map _).map _
  cases fillMissing (vecResize s.droneStatus (data : Int)) 0 (data : Int).toNat with
  | none => rfl
  | some v =>
    simp only [Option.map_some', Option.some.injEq]
    unfold setStatusMessage withCursor Controller.emit
    by_cases h : s.statusMessage = "Connected - " ++ toString (data : Int) ++ " drones available"
    · simp [h]
    · simp [h]

theorem updateDroneStatus_withCursor (s : Controller) (i : Int) (x : DroneStatus)
    (r : ReceiveState) (c : Nat) :
    updateDroneStatus (withCursor s r c) i x
      = (updateDroneStatus s i x).map fun t => withCursor t r c := by
  unfold updateDroneStatus
  by_cases h : i < s.droneCount
  · simp [withCursor, h, Controller.emit, Function.comp_def]
  · simp [withCursor, h]

theorem refApply_withCursor (s : Controller) (cmd data : Nat) (r : ReceiveState) (c : Nat) :
    refApply (withCursor s r c) cmd data
      = (refApply s cmd data).map fun t => withCursor t r c := by
  unfold refApply
  split_ifs <;>
    first
      | exact announceCount_withCursor ..
      | exact updateDroneStatus_withCursor ..
      | rfl

theorem refRun_withCursor (ps : List (Nat × Nat)) (s : Controller) (r : ReceiveState) (c : Nat) :
    refRun (withCursor s r c) ps = (refRun s ps).map fun t => withCursor t r c := by
  induction ps generalizing s with
  | nil => rfl
  | cons p ps ih =>
    simp only [refRun, refApply_withCursor]
    cases refApply s p.1 p.2 with
    | none => rfl
    | some t => exact ih t

theorem dispatch_eq_refApply (s : Controller) (data : Nat) :
    dispatch s data = refApply s s.currentCommand data := rfl

/-- Two bytes from `AwaitingCommand`: one application of the pair, then the cursor is back
in `AwaitingCommand` holding the command byte. -/
theorem handleReadyRead_pair (s : Controller) (h : s.receiveState = .AwaitingCommand)
    (c d : Nat) (rest : List Nat) :
    handleReadyRead s (c :: d :: rest)
      = (refApply s (c % 256) (d % 256)).bind fun t =>
          handleReadyRead (withCursor t .AwaitingCommand (c % 256)) rest := by
  have h1 : processByte s c = some (withCursor s .AwaitingData (c % 256)) := by
    unfold processByte; rw [h]; rfl
  have h2 : processByte (withCursor s .AwaitingData (c % 256)) d
      = (refApply s (c % 256) (d % 256)).map fun t => withCursor t .AwaitingCommand (c % 256) := by
    show (dispatch (withCursor s .AwaitingData (c % 256)) (d % 256)).map _ = _
    rw [dispatch_eq_refApply]
    show (refApply (withCursor s .AwaitingData (c % 256)) (c % 256) (d % 256)).map _ = _
    rw [refApply_withCursor, Option.map_map]
    rfl
  simp only [handleReadyRead, h1, h2, Option.some_bind]
  cases refApply s (c % 256) (d % 256) <;> rfl

/-! ### The table operations succeed on a well-sized table -/

theorem set_replicate_append (i : Nat) (a b x : DroneStatus) (u : List DroneStatus) :
    (List.replicate i a ++ x :: u).set i b = List.replicate i a ++ b :: u := by
  induction i with
  | zero => rfl
  | succ n ih => simp [List.replicate_succ, ih]

theorem vecSet_replicate_append (i : Nat) (x : DroneStatus) (u : List DroneStatus) :
    vecSet (List.replicate i .Missing ++ x :: u) (i : Int) .Missing
      = some (List.replicate (i + 1) .Missing ++ u) := by
  have hlt : (0 : Int) ≤ i
      ∧ (i : Int) < ((List.replicate i DroneStatus.Missing ++ x :: u).length : Nat) := by
    constructor
    · exact Int.ofNat_nonneg i
    · simp only [List.length_append, List.length_replicate, List.length_cons]; omega
  unfold vecSet
  rw [if_pos hlt, Int.toNat_ofNat, set_replicate_append, List.replicate_succ']
  simp

theorem fillMissing_replicate_append (k : Nat) :
    ∀ (i : Nat) (u : List DroneStatus), k ≤ u.length →
      fillMissing (List.replicate i .Missing ++ u) (i : Int) k
        = some (List.replicate (i + k) .Missing ++ u.drop k) := by
  induction k with
  | zero => intro i u _; simp [fillMissing]
  | succ k ih =>
    intro i u hk
    cases u with
    | nil => simp at hk
    | cons x u =>
      have hk2 : k ≤ u.length := by simpa using hk
      have hcast : ((i : Int) + 1) = ((i + 1 : Nat) : Int) := by push_cast; rfl
      simp only [fillMissing, vecSet_replicate_append, Option.some_bind, hcast, ih (i + 1) u hk2]
      simp [Nat.add_assoc, Nat.add_comm 1 k]

theorem vecResize_length (v : List DroneStatus) (n : Nat) : (vecResize v (n : Int)).length = n := by
  unfold vecResize
  simp only [Int.toNat_ofNat, List.length_append, List.length_take, List.length_replicate]
  omega

/-- The count-announcement loop after the resize never leaves the table, and fills it with
`Missing`. -/
theorem fillMissing_vecResize (v : List DroneStatus) (n : Nat) :
    fillMissing (vecResize v (n : Int)) 0 (n : Int).toNat = some (List.replicate n .Missing) := by
  have h := fillMissing_replicate_append n 0 (vecResize v (n : Int))
    (le_of_eq (vecResize_length v n).symm)
  have hd : (vecResize v (n : Int)).drop n = [] :=
    List.drop_eq_nil_of_le (le_of_eq (vecResize_length v n))
  simpa [hd] using h

/-- What a count announcement does, in closed form. -/
theorem announceCount_eq (s : Controller) (data : Nat) :
    announceCount s data
      = some ((setStatusMessage
          { s with droneCount := (data : Int), droneStatus := List.replicate data .Missing }
          ("Connected - " ++ toString (data : Int) ++ " drones available")).emit
            (.droneCountChanged (data : Int))) := by
  unfold announceCount
  simp only [fillMissing_vecResize, Option.map_some']

theorem setStatusMessage_droneCount (s : Controller) (m : String) :
    (setStatusMessage s m).droneCount = s.droneCount := by
  unfold setStatusMessage Controller.emit; split_ifs <;> rfl

theorem setStatusMessage_droneStatus (s : Controller) (m : String) :
    (setStatusMessage s m).droneStatus = s.droneStatus := by
  unfold setStatusMessage Controller.emit; split_ifs <;> rfl

theorem announceCount_WF (s : Controller) (data : Nat) (hd : data < 256) :
    ∃ t, announceCount s data = some t ∧ WF t := by
  refine ⟨_, announceCount_eq s data, ?_⟩
  unfold WF
  simp only [Controller.emit, setStatusMessage_droneCount, setStatusMessage_droneStatus,
    List.length_replicate]
  exact ⟨trivial, by omega⟩

theorem updateDroneStatus_WF (s : Controller) (hs : WF s) (data : Nat) (x : DroneStatus) :
    ∃ t, updateDroneStatus s (data : Int) x = some t ∧ WF t := by
  unfold updateDroneStatus
  by_cases h : (data : Int) < s.droneCount
  · have hlt : (0 : Int) ≤ data ∧ (data : Int) < (s.droneStatus.length : Nat) := by
      refine ⟨Int.ofNat_nonneg _, ?_⟩
      rw [hs.1]; exact h
    refine ⟨_, by rw [if_pos h, vecSet, if_pos hlt]; rfl, ?_⟩
    unfold WF at hs ⊢
    simpa [Controller.emit] using hs
  · exact ⟨s, by rw [if_neg h], hs⟩

theorem dispatch_WF (s : Controller) (hs : WF s) (data : Nat) (hd : data < 256) :
    ∃ t, dispatch s data = some t ∧ WF t := by
  unfold dispatch
  split_ifs
  · exact announceCount_WF s data hd
  · exact updateDroneStatus_WF s hs data _
  · exact updateDroneStatus_WF s hs data _
  · exact updateDroneStatus_WF s hs data _
  · exact ⟨s, rfl, hs⟩

theorem processByte_WF (s : Controller) (hs : WF s) (b : Nat) :
    ∃ t, processByte s b = some t ∧ WF t := by
  unfold processByte
  cases hr : s.receiveState with
  | AwaitingCommand => exact ⟨_, rfl, hs⟩
  | AwaitingData =>
    obtain ⟨t, ht, hwf⟩ := dispatch_WF s hs (b % 256) (Nat.mod_lt _ (by decide))
    exact ⟨{ t with receiveState := .AwaitingCommand }, by simp only [ht, Option.map_some'], hwf⟩

/-- On a well-sized table `handleReadyRead` runs to completion, whatever the bytes, and the
table stays well-sized. -/
theorem handleReadyRead_WF (bs : List Nat) :
    ∀ s : Controller, WF s → ∃ t, handleReadyRead s bs = some t ∧ WF t := by
  induction bs with
  | nil => intro s hs; exact ⟨s, rfl, hs⟩
  | cons b bs ih =>
    intro s hs
    obtain ⟨t, ht, hwf⟩ := processByte_WF s hs b
    obtain ⟨u, hu, hwu⟩ := ih t hwf
    exact ⟨u, by simp only [handleReadyRead, ht, Option.some_bind, hu], hwu⟩

/-! ## Decoder -/

/-- Claim C1. Chunking invariance: running `handleReadyRead` on `xs` and then on `ys` gives the
same final state, and with it the same sequence of emitted notifications (the field `log`),
as running it once on `xs ++ ys`; this holds from every controller state, and also says that
one run is defined exactly when the other is. -/
theorem handleReadyRead_append (s : Controller) (xs ys : List Nat) :
    (handleReadyRead s xs).bind (fun t => handleReadyRead t ys) = handleReadyRead s (xs ++ ys) := by
  induction xs generalizing s with
  | nil => rfl
  | cons b bs ih =>
    simp only [handleReadyRead, List.cons_append]
    cases processByte s b with
    | none => rfl
    | some t => exact ih t


theorem refCursor_step (held c d : Nat) (rest : List Nat) (u : Controller) :
    refCursor (c % 256) rest (withCursor u .AwaitingCommand (c % 256))
      = refCursor held (c :: d :: rest) u := by
  unfold refCursor withCursor
  have hpar : (c :: d :: rest).length % 2 = rest.length % 2 := by
    simp only [List.length_cons]; omega
  rcases Nat.mod_two_eq_zero_or_one rest.length with h0 | h1
  · by_cases hz : rest.length = 0
    · have : rest = [] := List.length_eq_zero.mp hz
      subst this
      simp
    · obtain ⟨n, hn⟩ : ∃ n, rest.length = n + 2 := ⟨rest.length - 2, by omega⟩
      have e1 : (c :: d :: rest).length - 2 = (n + 1) + 1 := by
        simp only [List.length_cons]; omega
      have e2 : rest.length - 2 = n := by omega
      simp only [hpar, h0, e1, e2, List.getD_cons_succ]
      simp [hn]
  · obtain ⟨n, hn⟩ : ∃ n, rest.length = n + 1 := ⟨rest.length - 1, by omega⟩
    have e1 : (c :: d :: rest).length - 1 = (n + 1) + 1 := by
      simp only [List.length_cons]; omega
    have e2 : rest.length - 1 = n := by omega
    simp only [hpar, h1, e1, e2, List.getD_cons_succ]
    simp

theorem handleReadyRead_refDecode_aux :
    ∀ (bs : List Nat) (s : Controller), s.receiveState = .AwaitingCommand →
      handleReadyRead s bs = refDecode s bs
  | [], s, h => by
    cases s
    simp only at h
    subst h
    rfl
  | [c], s, h => by
    cases s
    simp only at h
    subst h
    simp [handleReadyRead, processByte, refDecode, refPairs_single, refRun, refCursor]
  | c :: d :: rest, s, h => by
    rw [handleReadyRead_pair s h, refDecode, refPairs_cons_cons, refRun]
    cases refApply s (c % 256) (d % 256) with
    | none => rfl
    | some t =>
      simp only [Option.some_bind]
      rw [handleReadyRead_refDecode_aux rest (withCursor t .AwaitingCommand (c % 256)) rfl]
      unfold refDecode
      rw [refRun_withCursor, Option.map_map]
      refine congrArg₂ Option.map (funext fun u => ?_) rfl
      exact refCursor_step s.currentCommand c d rest u


/-- Claim C2. Decoder equals the pairwise reference.  From a cursor in `AwaitingCommand`,
`handleReadyRead` on `b[0..m)` is the reference decoder `refDecode`: it applies the `m / 2`
pairs `(b[2k], b[2k+1])` in order (`0x32` announces the count, `0x33`/`0x34`/`0x35` update
the status of device `data` to Ready/NotReady/Missing, any other command applies nothing),
and leaves the cursor in `AwaitingCommand` when `m` is even and in `AwaitingData` holding
`b[m-1]` when `m` is odd.  On a well-sized table the run completes. -/
theorem handleReadyRead_eq_refDecode (s : Controller)
    (h : s.receiveState = .AwaitingCommand) (bs : List Nat) :
    handleReadyRead s bs = refDecode s bs
    ∧ (refPairs bs).length = bs.length / 2
    ∧ (∀ k, k < bs.length / 2 →
        (refPairs bs).get? k = some (bs.getD (2 * k) 0 % 256, bs.getD (2 * k + 1) 0 % 256))
    ∧ (WF s → ∃ t, handleReadyRead s bs = some t)
    ∧ (∀ t, handleReadyRead s bs = some t →
        (bs.length % 2 = 0 → t.receiveState = .AwaitingCommand)
        ∧ (bs.length % 2 = 1 →
            t.receiveState = .AwaitingData
            ∧ t.currentCommand = bs.getD (bs.length - 1) 0 % 256)) := by
  have hmain := handleReadyRead_refDecode_aux bs s h
  refine ⟨hmain, by simp [refPairs], ?_, ?_, ?_⟩
  · intro k hk
    simp [refPairs, List.getElem?_range hk, hk]
  · intro hs
    obtain ⟨t, ht, _⟩ := handleReadyRead_WF bs s hs
    exact ⟨t, ht⟩
  · intro t ht
    rw [hmain, refDecode] at ht
    cases hr : refRun s (refPairs bs) with
    | none => rw [hr] at ht; cases ht
    | some u =>
      rw [hr] at ht
      simp only [Option.map_some', Option.some.injEq] at ht
      subst ht
      constructor
      · intro h0; simp [refCursor, h0]
      · intro h1; simp [refCursor, h1]

theorem handleReadyRead_eq_refDecode_witness :
    (init 0).receiveState = .AwaitingCommand
    ∧ (handleReadyRead (init 0) [0x32, 3, 0x33, 1, 0x99]
          = refDecode (init 0) [0x32, 3, 0x33, 1, 0x99]
      ∧ (refPairs [0x32, 3, 0x33, 1, 0x99]).length = [0x32, 3, 0x33, 1, 0x99].length / 2
      ∧ (∀ k, k < [0x32, 3, 0x33, 1, 0x99].length / 2 →
          (refPairs [0x32, 3, 0x33, 1, 0x99]).get? k
            = some ([0x32, 3, 0x33, 1, 0x99].getD (2 * k) 0 % 256,
                [0x32, 3, 0x33, 1, 0x99].getD (2 * k + 1) 0 % 256))
      ∧ (WF (init 0) → ∃ t, handleReadyRead (init 0) [0x32, 3, 0x33, 1, 0x99] = some t)
      ∧ (∀ t, handleReadyRead (init 0) [0x32, 3, 0x33, 1, 0x99] = some t →
          ([0x32, 3, 0x33, 1, 0x99].length % 2 = 0 → t.receiveState = .AwaitingCommand)
          ∧ ([0x32, 3, 0x33, 1, 0x99].length % 2 = 1 →
              t.receiveState = .AwaitingData
              ∧ t.currentCommand
                  = [0x32, 3, 0x33, 1, 0x99].getD
                      ([0x32, 3, 0x33, 1, 0x99].length - 1) 0 % 256))) :=
  ⟨rfl, handleReadyRead_eq_refDecode (init 0) rfl [0x32, 3, 0x33, 1, 0x99]⟩


theorem vecGet_replicate (n : Nat) (x : DroneStatus) (i : Int) (h0 : 0 ≤ i) (h1 : i < n) :
    vecGet (List.replicate n x) i = some x := by
  have hlt : (0 : Int) ≤ i ∧ i < ((List.replicate n x).length : Nat) := by
    simp only [List.length_replicate]; exact ⟨h0, h1⟩
  have hn : i.toNat < n := by omega
  unfold vecGet
  rw [if_pos hlt, List.get?_eq_getElem?, List.getElem?_replicate, if_pos hn]

theorem getDroneStatus_withCursor (s : Controller) (r : ReceiveState) (c : Nat) (i : Int) :
    getDroneStatus (withCursor s r c) i = getDroneStatus s i := rfl

/-- Claim C3. A count announcement resets the whole table: from any state with the cursor in
`AwaitingCommand` and for any `count` in 0..255, `handleReadyRead` on `[0x32, count]`
completes, the device count is `count`, the table has exactly `count` entries, all `Missing`,
and `getDroneStatus i` is `Missing` for every integer `i`. -/
theorem count_announcement_resets_table (s : Controller)
    (h : s.receiveState = .AwaitingCommand) (count : Nat) (hc : count < 256) :
    ∃ t, handleReadyRead s [0x32, count] = some t
      ∧ t.droneCount = count
      ∧ t.droneStatus.length = count
      ∧ t.droneStatus = List.replicate count .Missing
      ∧ ∀ i : Int, getDroneStatus t i = some .Missing := by
  have hmod : count % 256 = count := Nat.mod_eq_of_lt hc
  have hrun : handleReadyRead s [0x32, count]
      = some (withCursor ((setStatusMessage
          { s with droneCount := (count : Int), droneStatus := List.replicate count .Missing }
          ("Connected - " ++ toString (count : Int) ++ " drones available")).emit
            (.droneCountChanged (count : Int))) .AwaitingCommand (0x32 % 256)) := by
    rw [handleReadyRead_pair s h, hmod]
    show (announceCount s count).bind _ = _
    rw [announceCount_eq]
    rfl
  have hcount : ∀ (u : Controller) (m : String) (e : Effect) (r : ReceiveState) (c : Nat),
      (withCursor ((setStatusMessage u m).emit e) r c).droneCount = u.droneCount := by
    intro u m e r c
    exact setStatusMessage_droneCount u m
  have htable : ∀ (u : Controller) (m : String) (e : Effect) (r : ReceiveState) (c : Nat),
      (withCursor ((setStatusMessage u m).emit e) r c).droneStatus = u.droneStatus := by
    intro u m e r c
    exact setStatusMessage_droneStatus u m
  refine ⟨_, hrun, ?_, ?_, ?_, ?_⟩
  · rw [hcount]
  · rw [htable]; simp
  · rw [htable]
  · intro i
    unfold getDroneStatus
    rw [hcount, htable]
    by_cases hi : i ≥ 0 ∧ i < (count : Int)
    · rw [if_pos hi]; exact vecGet_replicate count .Missing i hi.1 hi.2
    · rw [if_neg hi]

theorem count_announcement_resets_table_witness :
    (init 7).receiveState = .AwaitingCommand ∧ 3 < 256
    ∧ ∃ t, handleReadyRead (init 7) [0x32, 3] = some t
      ∧ t.droneCount = (3 : Nat)
      ∧ t.droneStatus.length = 3
      ∧ t.droneStatus = List.replicate 3 .Missing
      ∧ ∀ i : Int, getDroneStatus t i = some .Missing :=
  ⟨rfl, by decide, count_announcement_resets_table (init 7) rfl 3 (by decide)⟩

/-- Claim C4. A status update touches one entry only.  On a table whose length is the device
count, for a device id `d ≥ 0` (every id the decoder delivers is in 0..255) and any status
`x`, `updateDroneStatus d x` completes, leaves the device count and the table length
unchanged and leaves `getDroneStatus j` unchanged for every `j ≠ d`.  If `d < count`, the
entry `d` becomes `x`, nothing else in the controller changes, and exactly one notification
`droneStatusChanged(d, x)` is appended; if `d ≥ count` the state is unchanged, so nothing is
emitted. -/
theorem updateDroneStatus_frame (s : Controller)
    (hs : (s.droneStatus.length : Int) = s.droneCount) (d : Int) (hd : 0 ≤ d)
    (x : DroneStatus) :
    ∃ t, updateDroneStatus s d x = some t
      ∧ t.droneCount = s.droneCount
      ∧ t.droneStatus.length = s.droneStatus.length
      ∧ (∀ j : Int, j ≠ d → getDroneStatus t j = getDroneStatus s j)
      ∧ (d < s.droneCount →
          getDroneStatus t d = some x
          ∧ t = { s with droneStatus := s.droneStatus.set d.toNat x,
                         log := s.log ++ [.droneStatusChanged d x.toInt] })
      ∧ (s.droneCount ≤ d → t = s) := by
  by_cases hlt : d < s.droneCount
  · have hin : 0 ≤ d ∧ d < (s.droneStatus.length : Nat) := ⟨hd, by rw [hs]; exact hlt⟩
    have hrun : updateDroneStatus s d x
        = some { s with droneStatus := s.droneStatus.set d.toNat x,
                        log := s.log ++ [.droneStatusChanged d x.toInt] } := by
      unfold updateDroneStatus vecSet
      rw [if_pos hlt, if_pos hin]
      rfl
    have hself : getDroneStatus
        ({ s with droneStatus := s.droneStatus.set d.toNat x,
                  log := s.log ++ [.droneStatusChanged d x.toInt] } : Controller) d = some x := by
      have hin2 : 0 ≤ d ∧ d < ((s.droneStatus.set d.toNat x).length : Nat) := by
        rw [List.length_set]; exact hin
      have hn : d.toNat < s.droneStatus.length := by omega
      unfold getDroneStatus vecGet
      simp only [ge_iff_le]
      rw [if_pos ⟨hd, hlt⟩, if_pos hin2, List.get?_eq_getElem?, List.getElem?_set_self hn]
    refine ⟨_, hrun, rfl, by simp, ?_, fun _ => ⟨hself, rfl⟩,
      fun hge => absurd hlt (not_lt.mpr hge)⟩
    intro j hj
    unfold getDroneStatus vecGet
    simp only [ge_iff_le, List.length_set]
    by_cases hjr : 0 ≤ j ∧ j < s.droneCount
    · have hjin : 0 ≤ j ∧ j < (s.droneStatus.length : Nat) := ⟨hjr.1, by rw [hs]; exact hjr.2⟩
      have hne : d.toNat ≠ j.toNat := by omega
      simp only [if_pos hjr, if_pos hjin, List.get?_eq_getElem?, List.getElem?_set_ne hne]
    · simp only [if_neg hjr]
  · have hrun : updateDroneStatus s d x = some s := by
      unfold updateDroneStatus; rw [if_neg hlt]
    exact ⟨s, hrun, rfl, rfl, fun _ _ => rfl, fun h => absurd h hlt, fun _ => rfl⟩


theorem updateDroneStatus_frame_witness :
    ((threeDrones.droneStatus.length : Int) = threeDrones.droneCount) ∧ (0 : Int) ≤ 1
    ∧ ∃ t, updateDroneStatus threeDrones 1 .Ready = some t
      ∧ t.droneCount = threeDrones.droneCount
      ∧ t.droneStatus.length = threeDrones.droneStatus.length
      ∧ (∀ j : Int, j ≠ 1 → getDroneStatus t j = getDroneStatus threeDrones j)
      ∧ ((1 : Int) < threeDrones.droneCount →
          getDroneStatus t 1 = some .Ready
          ∧ t = { threeDrones with
                    droneStatus := threeDrones.droneStatus.set (1 : Int).toNat .Ready,
                    log := threeDrones.log ++ [.droneStatusChanged 1 DroneStatus.Ready.toInt] })
      ∧ (threeDrones.droneCount ≤ 1 → t = threeDrones) :=
  ⟨by decide, by decide, updateDroneStatus_frame threeDrones (by decide) 1 (by decide) .Ready⟩

/-! ## Outbound commands -/

theorem bytesWritten_append (a b : List Effect) :
    bytesWritten (a ++ b) = bytesWritten a ++ bytesWritten b := by
  induction a with
  | nil => rfl
  | cons e es ih => cases e <;> simp [bytesWritten, ih]

/-- Claim C5. The code at the failing input: on the connected controller with three drones,
`sendArm(-1)` is not rejected.  It returns `true` (the port accepting the write) and the bytes
`[0x36, 0xFF]` reach the port after the two init bytes. -/
theorem sendArm_negative_id_not_rejected :
    (handleReadyRead connected0 [0x32, 3]).map
        (fun s => (s.droneCount, (sendArm s (-1) 2 true).1,
          bytesWritten (sendArm s (-1) 2 true).2.log))
      = some (3, true, [0x31, 0x00, 0x36, 0xFF]) := by
  rfl

/-- Arm requests at or above the device count, or with the port closed, are rejected with
nothing handed to the port. -/
theorem sendArm_rejects_high_id (s : Controller) (id : Int) (written : Int) (waitOk : Bool)
    (h : s.portIsOpen = false ∨ s.droneCount ≤ id) :
    sendArm s id written waitOk = (false, s) := by
  unfold sendArm
  rcases h with h | h
  · simp [h]
  · simp [h]

/-- Claim C6. Arm encoding.  With the port open, a device count of at most 256 (it is at most
255 in every reachable state) and `0 ≤ deviceId < count`, `sendArm` hands exactly the two
bytes `[0x36, deviceId]` to the port, in one write, changes nothing else but the log, and
returns `true` exactly when the write reports 2 bytes and the write-completion wait
succeeds. -/
theorem sendArm_encoding (s : Controller) (hopen : s.portIsOpen = true)
    (hc : s.droneCount ≤ 256) (id : Int) (h0 : 0 ≤ id) (h1 : id < s.droneCount)
    (written : Int) (waitOk : Bool) :
    (sendArm s id written waitOk).2
        = { s with log := s.log ++ .portWrite [0x36, id.toNat] ::
              (if written = 2 then [.portWaitForBytesWritten 1000] else []) }
    ∧ bytesWritten (sendArm s id written waitOk).2.log = bytesWritten s.log ++ [0x36, id.toNat]
    ∧ ((sendArm s id written waitOk).1 = true ↔ written = 2 ∧ waitOk = true) := by
  have hmod : (id % 256).toNat = id.toNat := by
    rw [Int.emod_eq_of_lt h0 (by omega)]
  have hnot : ¬ s.droneCount ≤ id := not_le.mpr h1
  have hstate : (sendArm s id written waitOk).2
        = { s with log := s.log ++ .portWrite [0x36, id.toNat] ::
              (if written = 2 then [.portWaitForBytesWritten 1000] else []) } := by
    unfold sendArm sendCommand
    simp only [hopen, hmod, CMD_ARM, Controller.emit]
    by_cases hw : written = 2
    · subst hw
      cases waitOk <;> simp [hnot]
    · by_cases hm : written = -1
      · subst hm; simp [hnot]
      · simp [hw, hm, hnot]
  refine ⟨hstate, ?_, ?_⟩
  · rw [hstate]
    simp only [bytesWritten_append]
    by_cases hw : written = 2 <;> simp [hw, bytesWritten]
  · unfold sendArm sendCommand
    simp only [hopen, hmod, CMD_ARM, Controller.emit]
    by_cases hw : written = 2
    · subst hw
      cases waitOk <;> simp [hnot]
    · by_cases hm : written = -1
      · subst hm; simp [hnot]
      · simp [hw, hm, hnot]

theorem sendArm_encoding_witness :
    threeDrones.portIsOpen = true ∧ threeDrones.droneCount ≤ 256 ∧ (0 : Int) ≤ 2
    ∧ (2 : Int) < threeDrones.droneCount
    ∧ ((sendArm threeDrones 2 2 true).2
        = { threeDrones with log := threeDrones.log ++ .portWrite [0x36, (2 : Int).toNat] ::
              (if (2 : Int) = 2 then [.portWaitForBytesWritten 1000] else []) }
      ∧ bytesWritten (sendArm threeDrones 2 2 true).2.log
          = bytesWritten threeDrones.log ++ [0x36, (2 : Int).toNat]
      ∧ ((sendArm threeDrones 2 2 true).1 = true ↔ (2 : Int) = 2 ∧ true = true)) :=
  ⟨by decide, by decide, by decide, by decide,
    sendArm_encoding threeDrones (by decide) (by decide) 2 (by decide) (by decide) 2 true⟩


/-! ## Connection lifecycle -/

theorem setStatusMessage_receiveState (s : Controller) (m : String) :
    (setStatusMessage s m).receiveState = s.receiveState := by
  unfold setStatusMessage Controller.emit; split_ifs <;> rfl

theorem setStatusMessage_currentCommand (s : Controller) (m : String) :
    (setStatusMessage s m).currentCommand = s.currentCommand := by
  unfold setStatusMessage Controller.emit; split_ifs <;> rfl

theorem setStatusMessage_connected (s : Controller) (m : String) :
    (setStatusMessage s m).connected = s.connected := by
  unfold setStatusMessage Controller.emit; split_ifs <;> rfl

theorem setStatusMessage_portIsOpen (s : Controller) (m : String) :
    (setStatusMessage s m).portIsOpen = s.portIsOpen := by
  unfold setStatusMessage Controller.emit; split_ifs <;> rfl

theorem setStatusMessage_statusMessage (s : Controller) (m : String) :
    (setStatusMessage s m).statusMessage = m := by
  unfold setStatusMessage Controller.emit
  by_cases h : s.statusMessage = m
  · simp [h]
  · simp [h]

theorem setStatusMessage_portName (s : Controller) (m : String) :
    (setStatusMessage s m).portName = s.portName := by
  unfold setStatusMessage Controller.emit; split_ifs <;> rfl

/-- On a closed port `handleError` never reaches `stopCommunications`. -/
theorem handleError_closed (s : Controller) (h : s.portIsOpen = false)
    (error : SerialPortError) (errorString : String) :
    handleError s error errorString
      = if error = .NoError then s
        else setStatusMessage s ("Serial error: " ++ errorString) := by
  unfold handleError
  by_cases he : error = .NoError
  · simp only [if_pos he]
  · have hcond : ¬ (error ≠ .NotOpenError
        ∧ (setStatusMessage s ("Serial error: " ++ errorString)).portIsOpen = true) := by
      rw [setStatusMessage_portIsOpen, h]
      exact fun hc => Bool.noConfusion hc.2
    simp only [if_neg he, if_neg hcond]

/-- A failing `open` on a closed port: the call is logged, then the slot sets the message. -/
theorem portOpenCall_failed (s : Controller) (h : s.portIsOpen = false)
    (openError : SerialPortError) (errorString : String) :
    portOpenCall s false openError errorString
      = if openError = .NoError then s.emit .portOpen
        else setStatusMessage (s.emit .portOpen) ("Serial error: " ++ errorString) := by
  unfold portOpenCall
  simp only [Bool.false_eq_true, if_false]
  exact handleError_closed (s.emit .portOpen) h openError errorString

theorem portOpenCall_ok (s : Controller) (openError : SerialPortError) (errorString : String) :
    portOpenCall s true openError errorString
      = { s with portIsOpen := true, log := s.log ++ [.portOpen] } := rfl

theorem portCalls_append (a b : List Effect) :
    portCalls (a ++ b) = portCalls a ++ portCalls b := by
  simp [portCalls]

theorem setStatusMessage_portCalls (s : Controller) (m : String) :
    portCalls (setStatusMessage s m).log = portCalls s.log := by
  unfold setStatusMessage Controller.emit
  split_ifs
  · simp [portCalls, Effect.isPortCall]
  · rfl

theorem setStatusMessage_bytesWritten (s : Controller) (m : String) :
    bytesWritten (setStatusMessage s m).log = bytesWritten s.log := by
  unfold setStatusMessage Controller.emit
  split_ifs
  · simp [bytesWritten_append, bytesWritten]
  · rfl

/-- Claim C7, as stated, is refuted here. After connecting and receiving the single byte `0x33`, the
port is open and the cursor is `AwaitingData` holding `0x33`; `stopCommunications` succeeds
and the cursor is still `AwaitingData` holding `0x33`.  After a reconnect the announcement
`[0x32, 2]` is then misread: `0x32` is taken as the data byte of `0x33`, no count is
announced, and the cursor ends in `AwaitingData` holding `0x02`. -/
theorem stopCommunications_keeps_stale_cursor :
    (handleReadyRead connected0 [0x33]).map
        (fun s => (s.portIsOpen, (stopCommunications s).1,
          (stopCommunications s).2.receiveState, (stopCommunications s).2.currentCommand))
      = some (true, true, .AwaitingData, 0x33)
    ∧ ((handleReadyRead connected0 [0x33]).bind fun s =>
        (handleReadyRead (startCommunications (stopCommunications s).2 true .NoError "" 2).2
          [0x32, 2]).map fun t => (t.droneCount, t.receiveState, t.currentCommand))
      = some (0, .AwaitingData, 0x02) := by
  constructor <;> rfl

/-- Claim C7, amended. `stopCommunications` leaves the decoder cursor as it was: the receive
state and the held command byte are unchanged, so the cursor is `AwaitingCommand` afterwards
exactly when it was before. -/
theorem stopCommunications_cursor_unchanged (s : Controller) :
    (stopCommunications s).2.receiveState = s.receiveState
    ∧ (stopCommunications s).2.currentCommand = s.currentCommand
    ∧ ((stopCommunications s).2.receiveState = .AwaitingCommand
        ↔ s.receiveState = .AwaitingCommand) := by
  have h1 : (stopCommunications s).2.receiveState = s.receiveState := by
    unfold stopCommunications
    split_ifs
    · exact setStatusMessage_receiveState _ _
    · rfl
  have h2 : (stopCommunications s).2.currentCommand = s.currentCommand := by
    unfold stopCommunications
    split_ifs
    · exact setStatusMessage_currentCommand _ _
    · rfl
  exact ⟨h1, h2, by rw [h1]⟩

/-- Claim C9. Connected exactly when init was written: `startCommunications` returns `true`
if and only if opening the port succeeded and the init write reported exactly 2 bytes, and
in every case the returned boolean is the value of `isConnected` after the call. -/
theorem startCommunications_connected_iff (s : Controller) (openOk : Bool)
    (openError : SerialPortError) (errorString : String) (written : Int) :
    ((startCommunications s openOk openError errorString written).1 = true
        ↔ openOk = true ∧ written = 2)
    ∧ (startCommunications s openOk openError errorString written).2.connected
        = (startCommunications s openOk openError errorString written).1 := by
  unfold startCommunications
  cases openOk
  · simp [Controller.emit]
  · by_cases hw : written = 2
    · simp [hw, Controller.emit]
    · simp [hw, Controller.emit]

/-- Claim C10. Init encoding.  When opening the port succeeds, the calls `startCommunications`
makes on the port are, in order: `close` if the port was open, the setters, `open`, `clear`,
one `write` of exactly `[0x31, 0x00]`, and then `flush` if that write reported 2 bytes.  So
the only bytes handed to the port are `[0x31, 0x00]`, once, after the input buffer is cleared
and before any flush. -/
theorem startCommunications_init_bytes (s : Controller) (openError : SerialPortError)
    (errorString : String) (written : Int) :
    portCalls (startCommunications s true openError errorString written).2.log
        = portCalls s.log ++ (if s.portIsOpen then [Effect.portClose] else [])
          ++ [.portSetPortName s.portName, .portSetLine 9600, .portOpen, .portClear,
              .portWrite [0x31, 0x00]]
          ++ (if written = 2 then [Effect.portFlush] else [])
    ∧ bytesWritten (startCommunications s true openError errorString written).2.log
        = bytesWritten s.log ++ [0x31, 0x00] := by
  unfold startCommunications
  constructor
  · by_cases hw : written = 2 <;> cases ho : s.portIsOpen <;>
      simp [hw, ho, Controller.emit, portOpenCall_ok, setStatusMessage_portCalls,
        portCalls_append, CMD_INIT] <;>
      simp [portCalls, Effect.isPortCall, setStatusMessage_portCalls]
  · by_cases hw : written = 2 <;> cases ho : s.portIsOpen <;>
      simp [hw, ho, Controller.emit, portOpenCall_ok, setStatusMessage_bytesWritten,
        bytesWritten_append, bytesWritten, CMD_INIT]


/-! ## Unknown commands -/

theorem refApply_unknown (s : Controller) (cmd data : Nat)
    (h32 : cmd ≠ 0x32) (h33 : cmd ≠ 0x33) (h34 : cmd ≠ 0x34) (h35 : cmd ≠ 0x35) :
    refApply s cmd data = some s := by
  unfold refApply
  rw [if_neg h32, if_neg h33, if_neg h34, if_neg h35]

/-- From `AwaitingCommand` the held command byte is dead: the next byte overwrites it. -/
theorem handleReadyRead_held_irrelevant (s : Controller)
    (h : s.receiveState = .AwaitingCommand) (x b : Nat) (bs : List Nat) :
    handleReadyRead { s with currentCommand := x } (b :: bs) = handleReadyRead s (b :: bs) := by
  have hp : processByte { s with currentCommand := x } b = processByte s b := by
    unfold processByte
    simp only [h]
  simp only [handleReadyRead, hp]

/-- Claim C8. Unknown commands mutate nothing and cost exactly one pair.  With the cursor in
`AwaitingCommand`, a command byte `c` outside `0x32..0x35` and any data byte `d`,
`handleReadyRead` on `[c, d]` completes and changes nothing but the held command byte: the
device count, the table, the connection flag, the status message and the log (so no
notification is emitted) are as before and the cursor is in `AwaitingCommand`.  Any bytes
that follow are decoded exactly as if `[c, d]` had not been sent. -/
theorem unknown_command_pair (s : Controller) (h : s.receiveState = .AwaitingCommand)
    (c d : Nat) (h32 : c % 256 ≠ 0x32) (h33 : c % 256 ≠ 0x33) (h34 : c % 256 ≠ 0x34)
    (h35 : c % 256 ≠ 0x35) :
    handleReadyRead s [c, d] = some { s with currentCommand := c % 256 }
    ∧ ({ s with currentCommand := c % 256 } : Controller).receiveState = .AwaitingCommand
    ∧ (∀ rest, handleReadyRead s (c :: d :: rest)
        = handleReadyRead { s with currentCommand := c % 256 } rest)
    ∧ (∀ rest, rest ≠ [] → handleReadyRead s (c :: d :: rest) = handleReadyRead s rest) := by
  have hcur : withCursor s .AwaitingCommand (c % 256) = { s with currentCommand := c % 256 } := by
    unfold withCursor
    rw [← h]
  have hstep : ∀ rest, handleReadyRead s (c :: d :: rest)
      = handleReadyRead { s with currentCommand := c % 256 } rest := by
    intro rest
    rw [handleReadyRead_pair s h, refApply_unknown s _ _ h32 h33 h34 h35, Option.some_bind, hcur]
  refine ⟨hstep [], h, hstep, ?_⟩
  intro rest hne
  cases rest with
  | nil => exact absurd rfl hne
  | cons b bs => rw [hstep, handleReadyRead_held_irrelevant s h]

theorem unknown_command_pair_witness :
    threeDrones.receiveState = .AwaitingCommand
    ∧ 0x99 % 256 ≠ 0x32 ∧ 0x99 % 256 ≠ 0x33 ∧ 0x99 % 256 ≠ 0x34 ∧ 0x99 % 256 ≠ 0x35
    ∧ (handleReadyRead threeDrones [0x99, 5]
          = some { threeDrones with currentCommand := 0x99 % 256 }
      ∧ ({ threeDrones with currentCommand := 0x99 % 256 } : Controller).receiveState
          = .AwaitingCommand
      ∧ (∀ rest, handleReadyRead threeDrones (0x99 :: 5 :: rest)
          = handleReadyRead { threeDrones with currentCommand := 0x99 % 256 } rest)
      ∧ (∀ rest, rest ≠ [] →
          handleReadyRead threeDrones (0x99 :: 5 :: rest) = handleReadyRead threeDrones rest)) :=
  ⟨by decide, by decide, by decide, by decide, by decide,
    unknown_command_pair threeDrones (by decide) 0x99 5 (by decide) (by decide) (by decide)
      (by decide)⟩

/-! ## Handshake failures -/

theorem statusMessages_append (a b : List Effect) :
    statusMessages (a ++ b) = statusMessages a ++ statusMessages b := by
  induction a with
  | nil => rfl
  | cons e es ih => cases e <;> simp [statusMessages, ih]

theorem setStatusMessage_statusMessages (s : Controller) (m : String) :
    statusMessages (setStatusMessage s m).log
      = statusMessages s.log ++ (if s.statusMessage = m then [] else [m]) := by
  unfold setStatusMessage Controller.emit
  by_cases h : s.statusMessage = m
  · simp [h]
  · simp [h, statusMessages_append, statusMessages]

/-- Claim C11. Open failure aborts cleanly: from every state, when `open` fails,
`startCommunications` returns `false`, ends with `isConnected = false`, makes no `write` call
(the calls on the port are `close` if it was open, the setters and `open`), so no byte is
handed to the port, and the port is closed afterwards. -/
theorem startCommunications_open_failure (s : Controller) (openError : SerialPortError)
    (errorString : String) (written : Int) :
    (startCommunications s false openError errorString written).1 = false
    ∧ (startCommunications s false openError errorString written).2.connected = false
    ∧ (startCommunications s false openError errorString written).2.portIsOpen = false
    ∧ bytesWritten (startCommunications s false openError errorString written).2.log
        = bytesWritten s.log
    ∧ portCalls (startCommunications s false openError errorString written).2.log
        = portCalls s.log ++ (if s.portIsOpen then [Effect.portClose] else [])
          ++ [.portSetPortName s.portName, .portSetLine 9600, .portOpen] := by
  unfold startCommunications
  refine ⟨rfl, rfl, ?_, ?_, ?_⟩
  · by_cases he : openError = .NoError <;> cases ho : s.portIsOpen <;>
      simp [ho, he, Controller.emit, portOpenCall_failed, setStatusMessage_portIsOpen]
  · by_cases he : openError = .NoError <;> cases ho : s.portIsOpen <;>
      simp [ho, he, Controller.emit, portOpenCall_failed, setStatusMessage_bytesWritten,
        bytesWritten_append, bytesWritten]
  · by_cases he : openError = .NoError <;> cases ho : s.portIsOpen <;>
      simp [ho, he, Controller.emit, portOpenCall_failed, setStatusMessage_portCalls,
        portCalls_append] <;>
      simp [portCalls, Effect.isPortCall]

theorem serialErrorText_ne_openFailureText (a n b : String) :
    "Serial error: " ++ a ≠ "Failed to open port " ++ n ++ ": " ++ b := by
  intro h
  have h2 := congrArg String.data h
  simp only [String.data_append] at h2
  have h3 := congrArg List.head? h2
  simp at h3

/-- Claim C12, as stated, is refuted here. On the constructed controller a
`startCommunications` whose `open` fails returns `false` and emits two
`statusMessageChanged`: the text set by the slot `handleError`, then the open failure text;
a second identical failure emits the same two again.  On the controller whose first
`startCommunications` failed at the init write, a second call failing the same way returns
`false` and emits no `statusMessageChanged` at all. -/
theorem startCommunications_failure_not_once :
    (startCommunications (init 0) false .DeviceNotFoundError "No such file or directory" 0).1
        = false
    ∧ statusMessages
        (startCommunications (init 0) false .DeviceNotFoundError
          "No such file or directory" 0).2.log
        = ["Serial error: No such file or directory",
            "Failed to open port /dev/ttyUSB0: No such file or directory"]
    ∧ statusMessages
        ((startCommunications openFailed false .DeviceNotFoundError
          "No such file or directory" 0).2.log.drop openFailed.log.length)
        = ["Serial error: No such file or directory",
            "Failed to open port /dev/ttyUSB0: No such file or directory"]
    ∧ (startCommunications initWriteFailed true .NoError "" 1).1 = false
    ∧ statusMessages
        ((startCommunications initWriteFailed true .NoError "" 1).2.log.drop
          initWriteFailed.log.length)
        = [] := by
  refine ⟨?_, ?_, ?_, ?_, ?_⟩ <;> rfl

/-- Claim C12, amended. Every failed call of `startCommunications` (open fails, or the init
write does not report 2 bytes) returns `false`, and the `statusMessageChanged` it emits
are these.  When `open` fails with an error other than `NoError`: first the text of the slot
`handleError` (`Serial error: ...`), unless the status message held before the call already
is that text, and then always the open failure text; so two notifications, or one.
Otherwise (the init write failed, or `open` failed reporting `NoError`): the failure text
once when it differs from the status message held before the call, and nothing when the
status message already is that text. -/
theorem startCommunications_failure_notifies (s : Controller) (openOk : Bool)
    (openError : SerialPortError) (errorString : String) (written : Int)
    (hfail : openOk = false ∨ written ≠ 2) :
    (startCommunications s openOk openError errorString written).1 = false
    ∧ statusMessages (startCommunications s openOk openError errorString written).2.log
        = statusMessages s.log
          ++ (if openOk = false ∧ openError ≠ .NoError then
                (if s.statusMessage = "Serial error: " ++ errorString then []
                 else ["Serial error: " ++ errorString])
                ++ [failureText s openOk errorString]
              else
                (if s.statusMessage = failureText s openOk errorString then []
                 else [failureText s openOk errorString])) := by
  unfold startCommunications failureText
  cases openOk with
  | false =>
    by_cases he : openError = .NoError
    · cases ho : s.portIsOpen <;>
        simp [ho, he, Controller.emit, portOpenCall_failed, statusMessages_append,
          statusMessages, setStatusMessage_statusMessages]
    · have hne := serialErrorText_ne_openFailureText errorString s.portName errorString
      cases ho : s.portIsOpen <;>
        simp [ho, he, hne, Controller.emit, portOpenCall_failed, statusMessages_append,
          statusMessages, setStatusMessage_statusMessages, setStatusMessage_statusMessage,
          setStatusMessage_portName]
  | true =>
    have hw : written ≠ 2 := by
      rcases hfail with h | h
      · cases h
      · exact h
    cases ho : s.portIsOpen <;>
      simp [ho, hw, Controller.emit, portOpenCall_ok, statusMessages_append, statusMessages,
        setStatusMessage_statusMessages]

theorem startCommunications_failure_notifies_witness :
    ((false = false ∨ (0 : Int) ≠ 2))
    ∧ ((startCommunications (init 0) false .DeviceNotFoundError "No such file or directory"
          0).1 = false
      ∧ statusMessages
          (startCommunications (init 0) false .DeviceNotFoundError "No such file or directory"
            0).2.log
          = statusMessages (init 0).log
            ++ (if false = false ∧ SerialPortError.DeviceNotFoundError ≠ .NoError then
                  (if (init 0).statusMessage = "Serial error: " ++ "No such file or directory"
                   then []
                   else ["Serial error: " ++ "No such file or directory"])
                  ++ [failureText (init 0) false "No such file or directory"]
                else
                  (if (init 0).statusMessage
                      = failureText (init 0) false "No such file or directory" then []
                   else [failureText (init 0) false "No such file or directory"]))) :=
  ⟨Or.inl rfl, startCommunications_failure_notifies (init 0) false .DeviceNotFoundError
    "No such file or directory" 0 (Or.inl rfl)⟩

/-! ## Arm round trip -/

/-- What `sendArm` hands to the port when it passes its guard. -/
theorem sendArm_bytesWritten (s : Controller) (hopen : s.portIsOpen = true) (id : Int)
    (h1 : id < s.droneCount) (written : Int) (waitOk : Bool) :
    bytesWritten (sendArm s id written waitOk).2.log
      = bytesWritten s.log ++ [0x36, (id % 256).toNat] := by
  have hnot : ¬ s.droneCount ≤ id := not_le.mpr h1
  unfold sendArm sendCommand
  simp only [hopen, CMD_ARM, Controller.emit]
  by_cases hw : written = 2
  · subst hw
    cases waitOk <;> simp [hnot, bytesWritten_append, bytesWritten]
  · by_cases hm : written = -1
    · subst hm; simp [hnot, bytesWritten_append, bytesWritten]
    · simp [hw, hm, hnot, bytesWritten_append, bytesWritten]

/-- Claim C14. The arm round trip is not conflated with inbound opcodes.  With the port open
and `deviceId < count` (so `sendArm` passes its guard; every id in range is such), `sendArm`
hands the port the two bytes `[0x36, deviceId mod 256]`, and feeding these two bytes to
`handleReadyRead` of any controller whose cursor is in `AwaitingCommand` completes and
changes nothing but the held command byte: the log is unchanged, so neither
`droneCountChanged` nor `droneStatusChanged` is emitted, the device count and the table are
unchanged, and the cursor is back in `AwaitingCommand`. -/
theorem sendArm_round_trip (s : Controller) (hopen : s.portIsOpen = true) (id : Int)
    (h1 : id < s.droneCount) (written : Int) (waitOk : Bool)
    (d : Controller) (hd : d.receiveState = .AwaitingCommand) :
    bytesWritten (sendArm s id written waitOk).2.log
        = bytesWritten s.log ++ [0x36, (id % 256).toNat]
    ∧ handleReadyRead d [0x36, (id % 256).toNat] = some { d with currentCommand := 0x36 }
    ∧ ({ d with currentCommand := 0x36 } : Controller).receiveState = .AwaitingCommand
    ∧ ({ d with currentCommand := 0x36 } : Controller).droneCount = d.droneCount
    ∧ ({ d with currentCommand := 0x36 } : Controller).droneStatus = d.droneStatus
    ∧ ({ d with currentCommand := 0x36 } : Controller).log = d.log := by
  refine ⟨sendArm_bytesWritten s hopen id h1 written waitOk, ?_, hd, rfl, rfl, rfl⟩
  rw [handleReadyRead_pair d hd,
    refApply_unknown d _ _ (by decide) (by decide) (by decide) (by decide), Option.some_bind]
  show some (withCursor d .AwaitingCommand (0x36 % 256)) = _
  unfold withCursor
  rw [← hd]

theorem sendArm_round_trip_witness :
    threeDrones.portIsOpen = true ∧ (2 : Int) < threeDrones.droneCount
    ∧ (sendArm threeDrones 2 2 true).2.receiveState = .AwaitingCommand
    ∧ (bytesWritten (sendArm threeDrones 2 2 true).2.log
        = bytesWritten threeDrones.log ++ [0x36, ((2 : Int) % 256).toNat]
      ∧ handleReadyRead (sendArm threeDrones 2 2 true).2 [0x36, ((2 : Int) % 256).toNat]
          = some { (sendArm threeDrones 2 2 true).2 with currentCommand := 0x36 }
      ∧ ({ (sendArm threeDrones 2 2 true).2 with currentCommand := 0x36 } :
            Controller).receiveState = .AwaitingCommand
      ∧ ({ (sendArm threeDrones 2 2 true).2 with currentCommand := 0x36 } :
            Controller).droneCount = (sendArm threeDrones 2 2 true).2.droneCount
      ∧ ({ (sendArm threeDrones 2 2 true).2 with currentCommand := 0x36 } :
            Controller).droneStatus = (sendArm threeDrones 2 2 true).2.droneStatus
      ∧ ({ (sendArm threeDrones 2 2 true).2 with currentCommand := 0x36 } :
            Controller).log = (sendArm threeDrones 2 2 true).2.log) :=
  ⟨by decide, by decide, by decide,
    sendArm_round_trip threeDrones (by decide) 2 (by decide) 2 true
      (sendArm threeDrones 2 2 true).2 (by decide)⟩

/-! ## The device table under the lifecycle operations -/

theorem startCommunications_droneCount (s : Controller) (openOk : Bool)
    (openError : SerialPortError) (errorString : String) (written : Int) :
    (startCommunications s openOk openError errorString written).2.droneCount
      = s.droneCount := by
  unfold startCommunications
  by_cases he : openError = .NoError <;> cases openOk <;> cases ho : s.portIsOpen <;>
    by_cases hw : written = 2 <;>
    simp [ho, hw, he, Controller.emit, portOpenCall_ok, portOpenCall_failed,
      setStatusMessage_droneCount]

theorem startCommunications_droneStatus (s : Controller) (openOk : Bool)
    (openError : SerialPortError) (errorString : String) (written : Int) :
    (startCommunications s openOk openError errorString written).2.droneStatus
      = s.droneStatus := by
  unfold startCommunications
  by_cases he : openError = .NoError <;> cases openOk <;> cases ho : s.portIsOpen <;>
    by_cases hw : written = 2 <;>
    simp [ho, hw, he, Controller.emit, portOpenCall_ok, portOpenCall_failed,
      setStatusMessage_droneStatus]

theorem stopCommunications_droneCount (s : Controller) :
    (stopCommunications s).2.droneCount = s.droneCount := by
  unfold stopCommunications
  cases ho : s.portIsOpen <;> simp [Controller.emit, setStatusMessage_droneCount]

theorem stopCommunications_droneStatus (s : Controller) :
    (stopCommunications s).2.droneStatus = s.droneStatus := by
  unfold stopCommunications
  cases ho : s.portIsOpen <;> simp [Controller.emit, setStatusMessage_droneStatus]

theorem sendArm_droneCount (s : Controller) (id : Int) (written : Int) (waitOk : Bool) :
    (sendArm s id written waitOk).2.droneCount = s.droneCount := by
  unfold sendArm sendCommand Controller.emit
  split_ifs <;> rfl

theorem sendArm_droneStatus (s : Controller) (id : Int) (written : Int) (waitOk : Bool) :
    (sendArm s id written waitOk).2.droneStatus = s.droneStatus := by
  unfold sendArm sendCommand Controller.emit
  split_ifs <;> rfl

theorem handleError_droneCount (s : Controller) (error : SerialPortError)
    (errorString : String) : (handleError s error errorString).droneCount = s.droneCount := by
  unfold handleError
  by_cases he : error = .NoError
  · rw [if_pos he]
  · simp only [if_neg he]
    split_ifs
    · rw [stopCommunications_droneCount, setStatusMessage_droneCount]
    · rw [setStatusMessage_droneCount]

theorem handleError_droneStatus (s : Controller) (error : SerialPortError)
    (errorString : String) : (handleError s error errorString).droneStatus = s.droneStatus := by
  unfold handleError
  by_cases he : error = .NoError
  · rw [if_pos he]
  · simp only [if_neg he]
    split_ifs
    · rw [stopCommunications_droneStatus, setStatusMessage_droneStatus]
    · rw [setStatusMessage_droneStatus]

theorem WF_of_same_table (s t : Controller) (hs : WF s) (hc : t.droneCount = s.droneCount)
    (ht : t.droneStatus = s.droneStatus) : WF t := by
  unfold WF at hs ⊢
  rw [hc, ht]
  exact hs

theorem WF_init (cmd0 : Nat) : WF (init cmd0) := by
  unfold WF init
  exact ⟨rfl, show (0 : Int) ≤ 255 by decide⟩

/-- On a well-sized table the lookup of `getDroneStatus` is in bounds. -/
theorem getDroneStatus_WF (s : Controller) (hs : WF s) (i : Int) :
    getDroneStatus s i
      = some (if 0 ≤ i ∧ i < s.droneCount then s.droneStatus.getD i.toNat .Missing
              else .Missing) := by
  unfold getDroneStatus vecGet
  by_cases hi : 0 ≤ i ∧ i < s.droneCount
  · have hin : 0 ≤ i ∧ i < (s.droneStatus.length : Nat) := ⟨hi.1, by rw [hs.1]; exact hi.2⟩
    have hn : i.toNat < s.droneStatus.length := by omega
    simp only [ge_iff_le, if_pos hi, if_pos hin, List.get?_eq_getElem?,
      List.getElem?_eq_getElem hn, List.getD_eq_getElem?_getD, Option.getD_some]
  · simp only [ge_iff_le, if_neg hi]

/-- Every call from outside completes on a well-sized table and keeps it well-sized. -/
theorem step_WF (s : Controller) (hs : WF s) (op : Op) :
    ∃ t, step s op = some t ∧ WF t := by
  cases op with
  | configureSerialPort portName baudRate => exact ⟨_, rfl, WF_of_same_table s _ hs rfl rfl⟩
  | startCommunications openOk openError errorString written =>
    exact ⟨_, rfl, WF_of_same_table s _ hs (startCommunications_droneCount ..)
      (startCommunications_droneStatus ..)⟩
  | stopCommunications =>
    exact ⟨_, rfl, WF_of_same_table s _ hs (stopCommunications_droneCount s)
      (stopCommunications_droneStatus s)⟩
  | sendArm droneId written waitOk =>
    exact ⟨_, rfl, WF_of_same_table s _ hs (sendArm_droneCount ..) (sendArm_droneStatus ..)⟩
  | getDroneStatus droneId =>
    exact ⟨s, by simp only [step, getDroneStatus_WF s hs, Option.map_some'], hs⟩
  | handleError error errorString =>
    exact ⟨_, rfl, WF_of_same_table s _ hs (handleError_droneCount ..)
      (handleError_droneStatus ..)⟩
  | handleReadyRead bytes => exact handleReadyRead_WF bytes s hs

/-- Every sequence of calls completes on a well-sized table and keeps it well-sized. -/
theorem run_WF (ops : List Op) : ∀ s : Controller, WF s → ∃ t, run s ops = some t ∧ WF t := by
  induction ops with
  | nil => intro s hs; exact ⟨s, rfl, hs⟩
  | cons op ops ih =>
    intro s hs
    obtain ⟨t, ht, hwt⟩ := step_WF s hs op
    obtain ⟨u, hu, hwu⟩ := ih t hwt
    exact ⟨u, by simp only [run, ht, Option.some_bind, hu], hwu⟩

/-- The table never has a negative size. -/
theorem WF_nonneg (s : Controller) (hs : WF s) : 0 ≤ s.droneCount := by
  rw [← hs.1]
  exact Int.ofNat_nonneg _

theorem getDroneStatus_congr (s t : Controller) (hc : t.droneCount = s.droneCount)
    (ht : t.droneStatus = s.droneStatus) (i : Int) :
    getDroneStatus t i = getDroneStatus s i := by
  unfold getDroneStatus
  rw [hc, ht]

/-! ## Query -/

/-- Claim C15. The query is total with default `Missing`.  Every sequence of calls from the
constructed controller completes, and in the state `s` it reaches, for every integer `i`:
when `0 ≤ i < count` the index `i` is inside the table and `getDroneStatus i` returns the
entry at `i`; otherwise (negative or too large) it returns `Missing`.  The lookup is never
out of bounds. -/
theorem getDroneStatus_total (cmd0 : Nat) (ops : List Op) :
    ∃ s, run (init cmd0) ops = some s
      ∧ ∀ i : Int,
          (0 ≤ i ∧ i < s.droneCount →
            i.toNat < s.droneStatus.length
            ∧ ∃ x, s.droneStatus.get? i.toNat = some x ∧ getDroneStatus s i = some x)
          ∧ (¬ (0 ≤ i ∧ i < s.droneCount) → getDroneStatus s i = some .Missing) := by
  obtain ⟨s, hrun, hs⟩ := run_WF ops (init cmd0) (WF_init cmd0)
  refine ⟨s, hrun, fun i => ⟨fun hi => ?_, fun hi => ?_⟩⟩
  · have hn : i.toNat < s.droneStatus.length := by
      have := hs.1
      omega
    refine ⟨hn, s.droneStatus[i.toNat], ?_, ?_⟩
    · rw [List.get?_eq_getElem?, List.getElem?_eq_getElem hn]
    · rw [getDroneStatus_WF s hs, if_pos hi, List.getD_eq_getElem?_getD,
        List.getElem?_eq_getElem hn, Option.getD_some]
  · rw [getDroneStatus_WF s hs, if_neg hi]

theorem getDroneStatus_total_witness :
    ∃ s, run (init 0) [.startCommunications true .NoError "" 2,
          .handleReadyRead [0x32, 2, 0x33, 1],
          .getDroneStatus 1, .getDroneStatus (-1), .getDroneStatus 7] = some s
      ∧ ∀ i : Int,
          (0 ≤ i ∧ i < s.droneCount →
            i.toNat < s.droneStatus.length
            ∧ ∃ x, s.droneStatus.get? i.toNat = some x ∧ getDroneStatus s i = some x)
          ∧ (¬ (0 ≤ i ∧ i < s.droneCount) → getDroneStatus s i = some .Missing) :=
  getDroneStatus_total 0 [.startCommunications true .NoError "" 2,
    .handleReadyRead [0x32, 2, 0x33, 1],
    .getDroneStatus 1, .getDroneStatus (-1), .getDroneStatus 7]

/-! ## Table-size invariant -/

/-- Claim C17. The table-size invariant.  Every sequence of calls (`configureSerialPort`,
`startCommunications`, `stopCommunications`, `sendArm`, `getDroneStatus`, `handleError`,
`handleReadyRead` on any bytes, with any answers of the port) from the constructed
controller completes, so no table access on the way is out of bounds, and in the state it
reaches the table length is the device count and the count lies in 0..255.  Hence from that
state the write of `updateDroneStatus`, for any id a data byte can carry, and the loop of a
count announcement are in bounds as well. -/
theorem table_size_invariant (cmd0 : Nat) (ops : List Op) :
    ∃ s, run (init cmd0) ops = some s
      ∧ (s.droneStatus.length : Int) = s.droneCount
      ∧ 0 ≤ s.droneCount ∧ s.droneCount ≤ 255
      ∧ (∀ (data : Nat) (x : DroneStatus), ∃ t, updateDroneStatus s (data : Int) x = some t)
      ∧ (∀ data : Nat, ∃ t, announceCount s data = some t)
      ∧ (∀ bytes : List Nat, ∃ t, handleReadyRead s bytes = some t) := by
  obtain ⟨s, hrun, hs⟩ := run_WF ops (init cmd0) (WF_init cmd0)
  refine ⟨s, hrun, hs.1, WF_nonneg s hs, hs.2, ?_, ?_, ?_⟩
  · intro data x
    obtain ⟨t, ht, _⟩ := updateDroneStatus_WF s hs data x
    exact ⟨t, ht⟩
  · intro data
    exact ⟨_, announceCount_eq s data⟩
  · intro bytes
    obtain ⟨t, ht, _⟩ := handleReadyRead_WF bytes s hs
    exact ⟨t, ht⟩

/-! ## Reconnect -/

/-- Claim C19. The device table survives disconnect and reconnect.  From every state and for
every answer of the port, `stopCommunications` and `startCommunications` leave the device
count and the table as they were, so `getDroneStatus i` returns the same value after either
of them, and after a stop followed by a start, as before, for every `i`. -/
theorem table_survives_reconnect (s : Controller) (openOk : Bool)
    (openError : SerialPortError) (errorString : String) (written : Int) :
    (stopCommunications s).2.droneCount = s.droneCount
    ∧ (stopCommunications s).2.droneStatus = s.droneStatus
    ∧ (startCommunications s openOk openError errorString written).2.droneCount = s.droneCount
    ∧ (startCommunications s openOk openError errorString written).2.droneStatus = s.droneStatus
    ∧ (∀ i : Int, getDroneStatus (stopCommunications s).2 i = getDroneStatus s i)
    ∧ (∀ i : Int,
        getDroneStatus (startCommunications s openOk openError errorString written).2 i
          = getDroneStatus s i)
    ∧ (∀ i : Int,
        getDroneStatus
            (startCommunications (stopCommunications s).2 openOk openError errorString written).2 i
          = getDroneStatus s i) := by
  have h1 := stopCommunications_droneCount s
  have h2 := stopCommunications_droneStatus s
  have h3 := startCommunications_droneCount s openOk openError errorString written
  have h4 := startCommunications_droneStatus s openOk openError errorString written
  have h5 := startCommunications_droneCount (stopCommunications s).2 openOk openError
    errorString written
  have h6 := startCommunications_droneStatus (stopCommunications s).2 openOk openError
    errorString written
  exact ⟨h1, h2, h3, h4, getDroneStatus_congr _ _ h1 h2, getDroneStatus_congr _ _ h3 h4,
    getDroneStatus_congr _ _ (h5.trans h1) (h6.trans h2)⟩

/-! ## Transport errors -/

theorem serialErrorText_ne_disconnected (errorString : String) :
    "Serial error: " ++ errorString ≠ "Disconnected" := by
  intro h
  have h2 := congrArg String.data h
  rw [String.data_append] at h2
  have h3 := congrArg List.head? h2
  simp at h3

/-- What `stopCommunications` does when the port is open. -/
theorem stopCommunications_open (s : Controller) (ho : s.portIsOpen = true)
    (hm : s.statusMessage ≠ "Disconnected") :
    stopCommunications s
      = (true, { s with portIsOpen := false, connected := false, statusMessage := "Disconnected",
                        log := s.log ++ [.portClose, .connectionStatusChanged false,
                          .statusMessageChanged "Disconnected"] }) := by
  unfold stopCommunications setStatusMessage Controller.emit
  simp [ho, hm]

/-- Claim C16. A transport error forces disconnection.  For `NoError`, `handleError` changes
nothing.  For any other error it first calls `setStatusMessage` with the error text (prefixed
`Serial error: `); if the error is `NotOpenError` or the port is closed, that is all it does.
Otherwise (port open, error other than `NotOpenError`) it then performs exactly
`stopCommunications`: the port is closed, `isConnected` is `false`, and the log gains
`close`, `connectionStatusChanged(false)` and `statusMessageChanged("Disconnected")` after
the notification of the error text. -/
theorem handleError_forces_disconnect (s : Controller) (error : SerialPortError)
    (errorString : String) :
    (error = .NoError → handleError s error errorString = s)
    ∧ (error ≠ .NoError → (error = .NotOpenError ∨ s.portIsOpen = false) →
        handleError s error errorString
          = setStatusMessage s ("Serial error: " ++ errorString))
    ∧ (error ≠ .NoError → error ≠ .NotOpenError → s.portIsOpen = true →
        handleError s error errorString
          = (stopCommunications (setStatusMessage s ("Serial error: " ++ errorString))).2
        ∧ (stopCommunications (setStatusMessage s ("Serial error: " ++ errorString))).1 = true
        ∧ (handleError s error errorString).portIsOpen = false
        ∧ (handleError s error errorString).connected = false
        ∧ (handleError s error errorString).statusMessage = "Disconnected"
        ∧ (handleError s error errorString).log
            = (setStatusMessage s ("Serial error: " ++ errorString)).log
              ++ [.portClose, .connectionStatusChanged false,
                  .statusMessageChanged "Disconnected"]) := by
  refine ⟨?_, ?_, ?_⟩
  · intro he
    unfold handleError
    rw [if_pos he]
  · intro he hcase
    unfold handleError
    simp only [if_neg he]
    have hcond : ¬ (error ≠ .NotOpenError
        ∧ (setStatusMessage s ("Serial error: " ++ errorString)).portIsOpen = true) := by
      rw [setStatusMessage_portIsOpen]
      rcases hcase with h | h
      · exact fun hc => hc.1 h
      · rw [h]; exact fun hc => Bool.noConfusion hc.2
    rw [if_neg hcond]
  · intro he hne ho
    have ho2 : (setStatusMessage s ("Serial error: " ++ errorString)).portIsOpen = true := by
      rw [setStatusMessage_portIsOpen]; exact ho
    have hmsg : (setStatusMessage s ("Serial error: " ++ errorString)).statusMessage
        ≠ "Disconnected" := by
      rw [setStatusMessage_statusMessage]
      exact serialErrorText_ne_disconnected errorString
    have hrun : handleError s error errorString
        = (stopCommunications (setStatusMessage s ("Serial error: " ++ errorString))).2 := by
      unfold handleError
      simp only [if_neg he]
      rw [if_pos ⟨hne, ho2⟩]
    rw [hrun, stopCommunications_open _ ho2 hmsg]
    exact ⟨rfl, rfl, rfl, rfl, rfl, rfl⟩

theorem handleError_forces_disconnect_witness :
    handleError threeDrones .NoError "" = threeDrones
    ∧ handleError threeDrones .NotOpenError "Device is not open"
        = setStatusMessage threeDrones ("Serial error: " ++ "Device is not open")
    ∧ (handleError threeDrones .ResourceError "gone").portIsOpen = false
    ∧ (handleError threeDrones .ResourceError "gone").connected = false
    ∧ (handleError threeDrones .ResourceError "gone").log
        = (setStatusMessage threeDrones ("Serial error: " ++ "gone")).log
          ++ [.portClose, .connectionStatusChanged false,
              .statusMessageChanged "Disconnected"] :=
  ⟨(handleError_forces_disconnect threeDrones .NoError "").1 rfl,
    (handleError_forces_disconnect threeDrones .NotOpenError "Device is not open").2.1
      (by decide) (Or.inl rfl),
    ((handleError_forces_disconnect threeDrones .ResourceError "gone").2.2
      (by decide) (by decide) (by decide)).2.2.1,
    ((handleError_forces_disconnect threeDrones .ResourceError "gone").2.2
      (by decide) (by decide) (by decide)).2.2.2.1,
    ((handleError_forces_disconnect threeDrones .ResourceError "gone").2.2
      (by decide) (by decide) (by decide)).2.2.2.2.2⟩

/-! ## Before the first count announcement -/

theorem refRun_no_count (ps : List (Nat × Nat)) (s : Controller) (hc : s.droneCount = 0)
    (h : ∀ p ∈ ps, p.1 ≠ 0x32) : refRun s ps = some s := by
  induction ps with
  | nil => rfl
  | cons p ps ih =>
    have hp : p.1 ≠ 0x32 := h p (List.mem_cons_self p ps)
    have hnot : ¬ ((p.2 : Int) < s.droneCount) := by
      rw [hc]; exact not_lt.mpr (Int.ofNat_nonneg _)
    have hupd : ∀ x, updateDroneStatus s (p.2 : Int) x = some s := by
      intro x
      unfold updateDroneStatus
      rw [if_neg hnot]
    have happly : refApply s p.1 p.2 = some s := by
      unfold refApply
      rw [if_neg hp]
      split_ifs <;> first | exact hupd _ | rfl
    simp only [refRun, happly, Option.some_bind]
    exact ih fun q hq => h q (List.mem_cons_of_mem p hq)

/-- Claim C18. Status updates before any count announcement are dropped.  From the
constructed controller, for every byte sequence whose pairs `(b[2k], b[2k+1])` contain no
`0x32` command, `handleReadyRead` completes and only moves the cursor: the device count is
still 0, the table is still empty, the log is still empty (so no `droneStatusChanged`, nor
any other notification, is emitted), and `getDroneStatus i` is `Missing` for every `i`. -/
theorem updates_before_count_dropped (cmd0 : Nat) (bs : List Nat)
    (h : ∀ p ∈ refPairs bs, p.1 ≠ 0x32) :
    ∃ t, handleReadyRead (init cmd0) bs = some t
      ∧ t = refCursor cmd0 bs (init cmd0)
      ∧ t.droneCount = 0
      ∧ t.droneStatus = []
      ∧ t.log = []
      ∧ ∀ i : Int, getDroneStatus t i = some .Missing := by
  have hrun : handleReadyRead (init cmd0) bs = some (refCursor cmd0 bs (init cmd0)) := by
    rw [handleReadyRead_refDecode_aux bs (init cmd0) rfl, refDecode,
      refRun_no_count (refPairs bs) (init cmd0) rfl h]
    rfl
  refine ⟨_, hrun, rfl, rfl, rfl, rfl, ?_⟩
  intro i
  have hi : ¬ (i ≥ 0 ∧ i < (refCursor cmd0 bs (init cmd0)).droneCount) := by
    show ¬ (i ≥ 0 ∧ i < (0 : Int))
    omega
  unfold getDroneStatus
  rw [if_neg hi]

theorem updates_before_count_dropped_witness :
    (∀ p ∈ refPairs [0x33, 0, 0x34, 1, 0x99, 2, 0x35], p.1 ≠ 0x32)
    ∧ ∃ t, handleReadyRead (init 0) [0x33, 0, 0x34, 1, 0x99, 2, 0x35] = some t
      ∧ t = refCursor 0 [0x33, 0, 0x34, 1, 0x99, 2, 0x35] (init 0)
      ∧ t.droneCount = 0
      ∧ t.droneStatus = []
      ∧ t.log = []
      ∧ ∀ i : Int, getDroneStatus t i = some .Missing :=
  ⟨by decide, updates_before_count_dropped 0 [0x33, 0, 0x34, 1, 0x99, 2, 0x35] (by decide)⟩

/-! ## The connection flag and the port -/

theorem updateDroneStatus_link (s t : Controller) (i : Int) (x : DroneStatus)
    (h : updateDroneStatus s i x = some t) :
    t.connected = s.connected ∧ t.portIsOpen = s.portIsOpen := by
  unfold updateDroneStatus at h
  split_ifs at h
  · cases hv : vecSet s.droneStatus i x with
    | none => rw [hv] at h; cases h
    | some v =>
      rw [hv] at h
      simp only [Option.map_some', Option.some.injEq] at h
      subst h
      exact ⟨rfl, rfl⟩
  · simp only [Option.some.injEq] at h
    subst h
    exact ⟨rfl, rfl⟩

theorem announceCount_link (s t : Controller) (data : Nat) (h : announceCount s data = some t) :
    t.connected = s.connected ∧ t.portIsOpen = s.portIsOpen := by
  rw [announceCount_eq] at h
  simp only [Option.some.injEq] at h
  subst h
  exact ⟨setStatusMessage_connected _ _, setStatusMessage_portIsOpen _ _⟩

theorem processByte_link (s t : Controller) (b : Nat) (h : processByte s b = some t) :
    t.connected = s.connected ∧ t.portIsOpen = s.portIsOpen := by
  unfold processByte at h
  cases hr : s.receiveState with
  | AwaitingCommand =>
    rw [hr] at h
    simp only [Option.some.injEq] at h
    subst h
    exact ⟨rfl, rfl⟩
  | AwaitingData =>
    rw [hr] at h
    cases hd : dispatch s (b % 256) with
    | none => rw [hd] at h; cases h
    | some u =>
      rw [hd] at h
      simp only [Option.map_some', Option.some.injEq] at h
      subst h
      show u.connected = s.connected ∧ u.portIsOpen = s.portIsOpen
      unfold dispatch at hd
      split_ifs at hd
      · exact announceCount_link s u _ hd
      · exact updateDroneStatus_link s u _ _ hd
      · exact updateDroneStatus_link s u _ _ hd
      · exact updateDroneStatus_link s u _ _ hd
      · simp only [Option.some.injEq] at hd
        subst hd
        exact ⟨rfl, rfl⟩

theorem handleReadyRead_link (bs : List Nat) :
    ∀ s t : Controller, handleReadyRead s bs = some t →
      t.connected = s.connected ∧ t.portIsOpen = s.portIsOpen := by
  induction bs with
  | nil =>
    intro s t h
    simp only [handleReadyRead, Option.some.injEq] at h
    subst h
    exact ⟨rfl, rfl⟩
  | cons b bs ih =>
    intro s t h
    simp only [handleReadyRead] at h
    cases hp : processByte s b with
    | none => rw [hp] at h; cases h
    | some u =>
      rw [hp, Option.some_bind] at h
      obtain ⟨h1, h2⟩ := ih u t h
      obtain ⟨h3, h4⟩ := processByte_link s u b hp
      exact ⟨h1.trans h3, h2.trans h4⟩

theorem startCommunications_link (s : Controller) (openOk : Bool)
    (openError : SerialPortError) (errorString : String) (written : Int) :
    (startCommunications s openOk openError errorString written).2.connected = true →
      (startCommunications s openOk openError errorString written).2.portIsOpen = true := by
  unfold startCommunications
  by_cases he : openError = .NoError <;> cases openOk <;> cases ho : s.portIsOpen <;>
    by_cases hw : written = 2 <;>
    simp [ho, hw, he, Controller.emit, portOpenCall_ok, portOpenCall_failed,
      setStatusMessage_portIsOpen]

theorem stopCommunications_link (s : Controller) (hs : s.connected = true → s.portIsOpen = true) :
    (stopCommunications s).2.connected = true → (stopCommunications s).2.portIsOpen = true := by
  unfold stopCommunications
  cases ho : s.portIsOpen
  · simpa [ho] using hs
  · simp [Controller.emit, setStatusMessage_connected]

theorem sendArm_link (s : Controller) (id : Int) (written : Int) (waitOk : Bool) :
    (sendArm s id written waitOk).2.connected = s.connected
    ∧ (sendArm s id written waitOk).2.portIsOpen = s.portIsOpen := by
  unfold sendArm sendCommand Controller.emit
  split_ifs <;> exact ⟨rfl, rfl⟩

theorem handleError_link (s : Controller) (error : SerialPortError) (errorString : String)
    (hs : s.connected = true → s.portIsOpen = true) :
    (handleError s error errorString).connected = true →
      (handleError s error errorString).portIsOpen = true := by
  have hs1 : (setStatusMessage s ("Serial error: " ++ errorString)).connected = true →
      (setStatusMessage s ("Serial error: " ++ errorString)).portIsOpen = true := by
    rw [setStatusMessage_connected, setStatusMessage_portIsOpen]; exact hs
  unfold handleError
  by_cases he : error = .NoError
  · rw [if_pos he]; exact hs
  · simp only [if_neg he]
    split_ifs
    · exact stopCommunications_link _ hs1
    · exact hs1

/-- In every state reached by a call, `isConnected` implies that the port is open. -/
theorem step_link (s t : Controller) (op : Op) (hs : s.connected = true → s.portIsOpen = true)
    (h : step s op = some t) : t.connected = true → t.portIsOpen = true := by
  cases op with
  | configureSerialPort portName baudRate =>
    simp only [step, Option.some.injEq] at h
    subst h
    exact hs
  | startCommunications openOk openError errorString written =>
    simp only [step, Option.some.injEq] at h
    subst h
    exact startCommunications_link s openOk openError errorString written
  | stopCommunications =>
    simp only [step, Option.some.injEq] at h
    subst h
    exact stopCommunications_link s hs
  | sendArm droneId written waitOk =>
    simp only [step, Option.some.injEq] at h
    subst h
    rw [(sendArm_link s droneId written waitOk).1, (sendArm_link s droneId written waitOk).2]
    exact hs
  | getDroneStatus droneId =>
    simp only [step] at h
    cases hg : getDroneStatus s droneId with
    | none => rw [hg] at h; cases h
    | some x =>
      rw [hg] at h
      simp only [Option.map_some', Option.some.injEq] at h
      subst h
      exact hs
  | handleError error errorString =>
    simp only [step, Option.some.injEq] at h
    subst h
    exact handleError_link s error errorString hs
  | handleReadyRead bytes =>
    obtain ⟨h1, h2⟩ := handleReadyRead_link bytes s t h
    rw [h1, h2]
    exact hs

theorem run_link (ops : List Op) :
    ∀ s t : Controller, (s.connected = true → s.portIsOpen = true) → run s ops = some t →
      (t.connected = true → t.portIsOpen = true) := by
  induction ops with
  | nil =>
    intro s t hs h
    simp only [run, Option.some.injEq] at h
    subst h
    exact hs
  | cons op ops ih =>
    intro s t hs h
    simp only [run] at h
    cases hp : step s op with
    | none => rw [hp] at h; cases h
    | some u =>
      rw [hp, Option.some_bind] at h
      exact ih u t (step_link s u op hs hp) h

/-! ## Disconnect -/

/-- Claim C13, as stated, is refuted here. After a `startCommunications` whose init write
failed the controller is reachable, has `isConnected = false`, and its port is still open;
`stopCommunications` there returns `true`, closes the port and emits
`connectionStatusChanged(false)` and `statusMessageChanged("Disconnected")`. -/
theorem stopCommunications_after_init_failure :
    run (init 0) [.startCommunications true .NoError "" 1] = some initWriteFailed
    ∧ initWriteFailed.connected = false
    ∧ initWriteFailed.portIsOpen = true
    ∧ (stopCommunications initWriteFailed).1 = true
    ∧ (stopCommunications initWriteFailed).2.portIsOpen = false
    ∧ (stopCommunications initWriteFailed).2.log
        = initWriteFailed.log ++ [.portClose, .connectionStatusChanged false,
            .statusMessageChanged "Disconnected"] := by
  refine ⟨?_, ?_, ?_, ?_, ?_, ?_⟩ <;> rfl

/-- Claim C13, amended. In every state whose port is closed, `stopCommunications` changes
nothing, emits nothing and returns `false`; and from every state a second
`stopCommunications` in a row is such a call, so calling it twice leaves the same state as
calling it once.  In every state reached from the constructed controller a closed port
implies `isConnected = false`, so these are states in which the controller is
disconnected. -/
theorem stopCommunications_idempotent (s : Controller) :
    (s.portIsOpen = false → stopCommunications s = (false, s))
    ∧ (stopCommunications s).2.portIsOpen = false
    ∧ stopCommunications (stopCommunications s).2 = (false, (stopCommunications s).2)
    ∧ (∀ (cmd0 : Nat) (ops : List Op),
        run (init cmd0) ops = some s → s.portIsOpen = false → s.connected = false) := by
  have hreach : ∀ (cmd0 : Nat) (ops : List Op),
      run (init cmd0) ops = some s → s.portIsOpen = false → s.connected = false := by
    intro cmd0 ops hrun hp
    have hlink := run_link ops (init cmd0) s (fun h => Bool.noConfusion h) hrun
    cases hc : s.connected
    · rfl
    · rw [hlink hc] at hp
      cases hp
  have hclosed : ∀ t : Controller, t.portIsOpen = false → stopCommunications t = (false, t) := by
    intro t ht
    unfold stopCommunications
    simp [ht]
  have hafter : (stopCommunications s).2.portIsOpen = false := by
    unfold stopCommunications
    cases ho : s.portIsOpen
    · simp [ho]
    · simp only [if_true]
      unfold setStatusMessage Controller.emit
      split_ifs <;> rfl
  exact ⟨hclosed s, hafter, hclosed _ hafter, hreach⟩

theorem stopCommunications_idempotent_witness :
    (init 0).portIsOpen = false
    ∧ stopCommunications (init 0) = (false, init 0)
    ∧ (stopCommunications connected0).2.portIsOpen = false
    ∧ stopCommunications (stopCommunications connected0).2
        = (false, (stopCommunications connected0).2) :=
  ⟨rfl, (stopCommunications_idempotent (init 0)).1 rfl,
    (stopCommunications_idempotent connected0).2.1,
    (stopCommunications_idempotent connected0).2.2.1⟩

end DroneController
